import Mathlib

/-!
Verification development for the dxly symptom-ranking backend.

Shallow embedding of the two scoring engines:
* Engine A: `src/backend/diagnose.py` (tabular co-occurrence scorer).
* Engine B: `src/backend/json-based/diagnose.py` (profile-based
  expectation scorer).

Conventions of the embedding:
* Python floats are modelled as exact rationals (`Rat`); `round(x, k)`
  is modelled as round-half-to-even on the exact rational.
* Python dicts are modelled as association lists preserving insertion
  order (keys unique in well-formed data; lookup finds the first match).
* Python `None` is the `Value.vnone` constructor of the JSON-ish value
  type; `dict.get(k)` with no default yields `Value.vnone`.
* A Python function that can raise an uncaught exception is modelled
  with an `Option` result; `Option.none` marks the raised exception.
-/

/-- Python's `str.lower()` (charwise lowercasing). -/
def pyLower (s : String) : String := String.mk (s.toList.map Char.toLower)

/-- Python's `str.strip()` (drop whitespace from both ends). -/
def pyStrip (s : String) : String :=
  String.mk (((s.toList.dropWhile Char.isWhitespace).reverse.dropWhile
    Char.isWhitespace).reverse)

/-- Round half to even (Python's `round` with no digits), on exact
rationals. -/
def roundHalfEven (q : Rat) : Int :=
  let f : Int := ⌊q⌋
  let frac : Rat := q - (f : Rat)
  if frac < 1/2 then f
  else if 1/2 < frac then f + 1
  else if f % 2 = 0 then f else f + 1

/-- Python `round(x, 1)` on exact rationals. -/
def round1 (q : Rat) : Rat := (roundHalfEven (q * 10) : Rat) / 10

/-- Python `round(x, 2)` on exact rationals. -/
def round2 (q : Rat) : Rat := (roundHalfEven (q * 100) : Rat) / 100

/-- Ordered insertion used to model Python's stable descending
`list.sort(key=..., reverse=True)`: the inserted element goes in front
of the first element whose key is not larger, so an element placed
earlier in the original list stays in front of later tied elements. -/
def ordInsertDesc {α : Type} (key : α → Rat) (x : α) : List α → List α
  | [] => [x]
  | y :: ys => if key y ≤ key x then x :: y :: ys else y :: ordInsertDesc key x ys

/-- Stable sort by non-increasing key (model of Python's
`sort(key=..., reverse=True)`). -/
def sortDesc {α : Type} (key : α → Rat) : List α → List α
  | [] => []
  | x :: xs => ordInsertDesc key x (sortDesc key xs)

theorem mem_ordInsertDesc {α : Type} (key : α → Rat) (x : α) (l : List α) (a : α) :
    a ∈ ordInsertDesc key x l ↔ a = x ∨ a ∈ l := by
  induction l with
  | nil => simp [ordInsertDesc]
  | cons y ys ih =>
      by_cases h : key y ≤ key x
      · simp [ordInsertDesc, h]
      · simp [ordInsertDesc, h, ih]
        tauto

theorem mem_sortDesc {α : Type} (key : α → Rat) (l : List α) (a : α) :
    a ∈ sortDesc key l ↔ a ∈ l := by
  induction l with
  | nil => simp [sortDesc]
  | cons y ys ih => simp [sortDesc, mem_ordInsertDesc, ih]

theorem pairwise_ordInsertDesc {α : Type} (key : α → Rat) (x : α) (l : List α)
    (h : l.Pairwise (fun a b => key b ≤ key a)) :
    (ordInsertDesc key x l).Pairwise (fun a b => key b ≤ key a) := by
  induction l with
  | nil => simp [ordInsertDesc]
  | cons y ys ih =>
      rcases List.pairwise_cons.mp h with ⟨hy, hys⟩
      by_cases hxy : key y ≤ key x
      · simp only [ordInsertDesc, if_pos hxy]
        refine List.pairwise_cons.mpr ⟨?_, h⟩
        intro z hz
        rcases List.mem_cons.mp hz with rfl | hz
        · exact hxy
        · exact le_trans (hy z hz) hxy
      · simp only [ordInsertDesc, if_neg hxy]
        refine List.pairwise_cons.mpr ⟨?_, ih hys⟩
        intro z hz
        rcases (mem_ordInsertDesc key x ys z).mp hz with rfl | hz
        · exact le_of_lt (lt_of_not_le hxy)
        · exact hy z hz

theorem pairwise_sortDesc {α : Type} (key : α → Rat) (l : List α) :
    (sortDesc key l).Pairwise (fun a b => key b ≤ key a) := by
  induction l with
  | nil => simp [sortDesc]
  | cons y ys ih => exact pairwise_ordInsertDesc key y (sortDesc key ys) ih

theorem filter_ordInsertDesc_eq {α : Type} (key : α → Rat) (c : Rat) (x : α) (l : List α)
    (hx : key x = c) :
    (ordInsertDesc key x l).filter (fun a => key a == c) =
      x :: l.filter (fun a => key a == c) := by
  induction l with
  | nil =>
      simp only [ordInsertDesc, List.filter_cons, List.filter_nil]
      rw [if_pos (beq_iff_eq.mpr hx)]
  | cons y ys ih =>
      by_cases h : key y ≤ key x
      · simp only [ordInsertDesc, if_pos h, List.filter_cons]
        rw [if_pos (beq_iff_eq.mpr hx)]
      · have hyc : key y ≠ c := by
          intro hyc
          exact h (le_of_eq (by rw [hx, hyc]))
        simp only [ordInsertDesc, if_neg h, List.filter_cons]
        rw [if_neg (by simp [hyc]), ih, if_neg (by simp [hyc])]

theorem filter_ordInsertDesc_ne {α : Type} (key : α → Rat) (c : Rat) (x : α) (l : List α)
    (hx : key x ≠ c) :
    (ordInsertDesc key x l).filter (fun a => key a == c) =
      l.filter (fun a => key a == c) := by
  induction l with
  | nil =>
      simp only [ordInsertDesc, List.filter_cons, List.filter_nil]
      rw [if_neg (by simp [hx])]
  | cons y ys ih =>
      by_cases h : key y ≤ key x
      · simp only [ordInsertDesc, if_pos h, List.filter_cons]
        rw [if_neg (by simp [hx])]
      · simp only [ordInsertDesc, if_neg h, List.filter_cons]
        rw [ih]

/-- Stability of the descending sort: at every key value the sorted
list lists the tied elements in their original relative order. -/
theorem filter_sortDesc {α : Type} (key : α → Rat) (c : Rat) (l : List α) :
    (sortDesc key l).filter (fun a => key a == c) =
      l.filter (fun a => key a == c) := by
  induction l with
  | nil => simp [sortDesc]
  | cons y ys ih =>
      by_cases h : key y = c
      · rw [sortDesc, filter_ordInsertDesc_eq key c y _ h, ih, List.filter_cons,
          if_pos (beq_iff_eq.mpr h)]
      · rw [sortDesc, filter_ordInsertDesc_ne key c y _ h, ih, List.filter_cons,
          if_neg (by simp [h])]

namespace EngineA

/-- One running accumulator cell of `disease_scores` in
`src/backend/diagnose.py` (`defaultdict` entry, lines 130-136). -/
structure StatsA where
  total_score : Rat
  match_count : Nat
  case_count : Nat
  exact_matches : Nat
  single_symptom_matches : Nat
deriving DecidableEq, Repr

/-- The zero-initialised `defaultdict` payload. -/
def initStats : StatsA := ⟨0, 0, 0, 0, 0⟩

/-- Model of `normalize_symptom_name` (line 64): `symptom.lower().strip()`. -/
def normalize_symptom_name (s : String) : String := pyStrip (pyLower s)

/-- Model of `find_symptom_indices` (lines 69-92): per input symptom, the index
of the first normalized column equal to the normalized name; names
without a match are silently dropped (`except ValueError: pass`). -/
def find_symptom_indices (symptoms : List String) (symptom_columns : List String) :
    List Nat :=
  let normalized_columns := symptom_columns.map normalize_symptom_name
  symptoms.filterMap
    (fun s => normalized_columns.findIdx? (fun c => c == normalize_symptom_name s))

/-- The count `sum(1 for idx in symptom_indices if idx < len(row_symptoms) and
row_symptoms[idx] == 1)` (line 148). -/
def matched_count (symptom_indices : List Nat) (row : List Nat) : Nat :=
  symptom_indices.countP (fun idx => decide (idx < row.length) && (row.getD idx 0 == 1))

/-- Mutate-or-insert on the insertion-ordered association list that
models the Python `defaultdict` `disease_scores`. -/
def updateAssoc (acc : List (String × StatsA)) (d : String) (f : StatsA → StatsA) :
    List (String × StatsA) :=
  match acc with
  | [] => [(d, f initStats)]
  | (k, v) :: rest => if k = d then (k, f v) :: rest else (k, v) :: updateAssoc rest d f

/-- Model of `disease_frequencies` (lines 139-141): occurrences of the disease
id among all rows. -/
def disease_frequencies (rows : List (String × List Nat)) (d : String) : Nat :=
  (rows.map Prod.fst).count d

/-- The body of the per-row scoring loop (lines 144-177) for one case
row, as a step on the accumulator. -/
def stepRow (symptom_indices : List Nat) (freq : String → Nat)
    (acc : List (String × StatsA)) (dr : String × List Nat) :
    List (String × StatsA) :=
  let matched_symptoms := matched_count symptom_indices dr.2
  let total_symptoms_in_row := dr.2.sum
  if matched_symptoms = 0 then acc
  else
    let match_percentage : Rat := (matched_symptoms : Rat) / (symptom_indices.length : Rat)
    let base_score : Rat := match_percentage * 100
    let exact : Bool := matched_symptoms == symptom_indices.length
    let base_score := if exact then base_score * 2 else base_score
    let single : Bool := (total_symptoms_in_row == 1) && (matched_symptoms == 1)
    let base_score := if single then base_score * (3/2) else base_score
    let frequency_weight : Rat := 1 + (freq dr.1 : Rat) / 10000
    updateAssoc acc dr.1 (fun s =>
      { s with
        case_count := s.case_count + 1,
        exact_matches := s.exact_matches + (if exact then 1 else 0),
        single_symptom_matches := s.single_symptom_matches + (if single then 1 else 0),
        total_score := s.total_score + base_score * frequency_weight,
        match_count := s.match_count + matched_symptoms })

/-- One output record of Engine A (lines 192-201). -/
structure DiseaseMatch where
  disease : String
  score : Rat
  match_count : Nat
  total_symptom_count : Nat
  frequency : Nat
  match_percentage : Rat
  case_count : Nat
  exact_matches : Nat
deriving DecidableEq, Repr

/-- Finalisation of one accumulator cell (lines 181-201). -/
def finalizeA (n : Nat) (freq : String → Nat) (e : String × StatsA) : DiseaseMatch :=
  let stats := e.2
  let avg_score : Rat :=
    if 0 < stats.case_count then stats.total_score / (stats.case_count : Rat) else 0
  let confidence_weight : Rat := min ((stats.case_count : Rat) / 10) 2
  let final_score := avg_score * confidence_weight
  let match_percentage : Rat :=
    if 0 < stats.case_count then
      ((stats.match_count : Rat) / ((stats.case_count : Rat) * (n : Rat))) * 100
    else 0
  { disease := e.1,
    score := round2 final_score,
    match_count := stats.match_count,
    total_symptom_count := n,
    frequency := freq e.1,
    match_percentage := round2 match_percentage,
    case_count := stats.case_count,
    exact_matches := stats.exact_matches }

/-- The finalized per-disease records in accumulator (first matching
row) order, before sorting. -/
def results_list (symptom_indices : List Nat) (rows : List (String × List Nat)) :
    List DiseaseMatch :=
  (rows.foldl (stepRow symptom_indices (disease_frequencies rows)) []).map
    (finalizeA symptom_indices.length (disease_frequencies rows))

/-- Model of `diagnose` (lines 95-206), with the dataset passed explicitly:
resolve symptoms, short-circuit on an empty resolution, accumulate per
row, finalize, stable-sort descending by score, truncate. -/
def diagnose (symptoms : List String) (top_n : Nat) (symptom_columns : List String)
    (rows : List (String × List Nat)) : List DiseaseMatch :=
  let symptom_indices := find_symptom_indices symptoms symptom_columns
  if symptom_indices = [] then []
  else (sortDesc (fun r => r.score) (results_list symptom_indices rows)).take top_n

end EngineA

namespace EngineB

/-- Python/JSON values as they occur in the profile data and patient
reports of `src/backend/json-based/diagnose.py`. `vnone` is Python's
`None`. Following CPython, a `bool` also counts as a number where the
code asks `isinstance(x, (int, float))`. -/
inductive Value where
  | vnone : Value
  | num : Rat → Value
  | str : String → Value
  | bool : Bool → Value
  | list : List Value → Value

mutual

/-- Python `==` restricted to the value grammar above: numbers compare
by value (with `True == 1`, `False == 0`), strings by content, lists
elementwise; values of unrelated kinds are unequal. -/
def pyEq : Value → Value → Bool
  | Value.vnone, Value.vnone => true
  | Value.num a, Value.num b => a == b
  | Value.num a, Value.bool b => a == (if b then (1 : Rat) else 0)
  | Value.bool a, Value.num b => (if a then (1 : Rat) else 0) == b
  | Value.bool a, Value.bool b => a == b
  | Value.str a, Value.str b => a == b
  | Value.list a, Value.list b => pyEqList a b
  | _, _ => false

/-- Elementwise Python `==` on lists. -/
def pyEqList : List Value → List Value → Bool
  | [], [] => true
  | x :: xs, y :: ys => pyEq x y && pyEqList xs ys
  | _, _ => false

end

/-- Numeric value of the digit characters (most significant first). -/
def digitsVal (cs : List Char) : Nat :=
  cs.foldl (fun n c => n * 10 + (c.toNat - 48)) 0

/-- Unsigned decimal literal: digits with at most one dot, at least
one digit overall. -/
def parseDecimal (cs : List Char) : Option Rat :=
  let p := cs.span Char.isDigit
  match p.2 with
  | [] => if p.1.isEmpty then Option.none else some ((digitsVal p.1 : Nat) : Rat)
  | c :: fp =>
      if c = '.' ∧ fp.all Char.isDigit ∧ (p.1 ≠ [] ∨ fp ≠ []) then
        some ((digitsVal p.1 : Rat) + (digitsVal fp : Rat) / ((10 : Rat) ^ fp.length))
      else Option.none

/-- Python's `float(str)` on plain decimal literals (optional sign and
fraction; exponents and the inf/nan spellings are out of scope of the
data this system handles). `Option.none` is the raised `ValueError`. -/
def pyParseFloat (s : String) : Option Rat :=
  match (pyStrip s).toList with
  | '+' :: cs => parseDecimal cs
  | '-' :: cs => (parseDecimal cs).map Neg.neg
  | cs => parseDecimal cs

/-- Python's `float(actual)` as used in `match_expectation`:
`Option.none` is a raised `ValueError`/`TypeError` (caught there). -/
def pyFloat : Value → Option Rat
  | Value.num q => some q
  | Value.bool b => some (if b then 1 else 0)
  | Value.str s => pyParseFloat s
  | _ => Option.none

/-- Test `isinstance(x, (int, float))` — true of numbers and (in CPython)
of booleans. -/
def isNumLike : Value → Bool
  | Value.num _ => true
  | Value.bool _ => true
  | _ => false

/-- Numeric reading of a number-like value. -/
def numOf : Value → Rat
  | Value.num q => q
  | Value.bool b => if b then 1 else 0
  | _ => 0

/-- The range test of `match_expectation` (lines 57-59): a two-element
list whose entries are both numbers. -/
def isRange (es : List Value) : Bool :=
  (es.length == 2) && isNumLike (es.getD 0 Value.vnone) && isNumLike (es.getD 1 Value.vnone)

/-- The numeric-range branch of `match_expectation` (lines 60-74): the
`try` body converting `actual` with `float` (a failed conversion is the
caught `ValueError`/`TypeError`, scored 0.0). The `Option.none` result
marks the uncaught `ZeroDivisionError` raised when the violated bound
is zero (the `except` clause at line 73 catches only `ValueError` and
`TypeError`). -/
def range_score (min_val max_val : Rat) (actual : Value) : Option Rat :=
  match pyFloat actual with
  | Option.none => some 0
  | some actual_num =>
      if min_val ≤ actual_num ∧ actual_num ≤ max_val then some 1
      else if actual_num < min_val then
        if min_val = 0 then Option.none
        else some (max 0 (1 - ((min_val - actual_num) / min_val) * (1/2)))
      else
        if max_val = 0 then Option.none
        else some (max 0 (1 - ((actual_num - max_val) / max_val) * (1/2)))

/-- Test `actual is None` (line 51). -/
def isNone : Value → Bool
  | Value.vnone => true
  | _ => false

/-- The boolean-expected branch of `match_expectation` (lines 82-89):
booleans compare directly, strings coerce through the truthy tokens,
anything else scores 0.0. -/
def bool_score (expected_b : Bool) (actual : Value) : Option Rat :=
  match actual with
  | Value.bool actual_b => some (if actual_b == expected_b then 1 else 0)
  | Value.str s =>
      some (if (["true", "yes", "1"].contains (pyLower s)) == expected_b then 1 else 0)
  | _ => some 0

/-- The trailing equality branch of `match_expectation` (lines 91-101):
exact equality scores 1.0, two strings also compare case-insensitively,
everything else scores 0.0. -/
def eq_score (expected actual : Value) : Option Rat :=
  if pyEq expected actual then some 1
  else
    match expected with
    | Value.str es =>
        match actual with
        | Value.str as2 => some (if pyLower es == pyLower as2 then 1 else 0)
        | _ => some 0
    | _ => some 0

/-- Model of `match_expectation` (lines 40-101). -/
def match_expectation (expected actual : Value) : Option Rat :=
  if isNone actual then some 0
  else
    match expected with
    | Value.list es =>
        if isRange es then
          range_score (numOf (es.getD 0 Value.vnone)) (numOf (es.getD 1 Value.vnone)) actual
        else some (if es.any (fun e => pyEq actual e) then 1 else 0)
    | Value.bool expected_b => bool_score expected_b actual
    | _ => eq_score expected actual

/-- Attribute map of one reported symptom (a Python dict). -/
abbrev Attrs := List (String × Value)

/-- A patient report: symptom name → attribute map. -/
abbrev Patient := List (String × Attrs)

/-- First-match lookup on an association list (Python dict lookup on
unique keys). -/
def alist_get {α : Type} (l : List (String × α)) (k : String) : Option α :=
  match l with
  | [] => Option.none
  | kv :: rest => if kv.1 = k then some kv.2 else alist_get rest k

/-- Python `dict.get(key)` (default `None`). -/
def pyGet (attrs : Attrs) (k : String) : Value :=
  (alist_get attrs k).getD Value.vnone

/-- One symptom entry of a disease profile: `importance` and `note`
are optional keys of the JSON object (the code reads them through
`.get` with defaults), `expectations` is the attribute-expectation
map. -/
structure SymptomConfig where
  importance : Option Rat
  note : Option String
  expectations : List (String × Value)

/-- One disease profile (the optional keys mirror the `.get` defaults
at lines 179, 276-277). -/
structure DiseaseData where
  common_name : Option String
  category : Option String
  prevalence : Option Rat
  symptoms : List (String × SymptomConfig)

/-- Model of `calculate_symptom_match_score` (lines 104-139): mean of
`match_expectation` over the expectation keys (each weight 1.0);
an empty expectation map scores 1.0 on presence alone. -/
def calculate_symptom_match_score (disease_symptom : SymptomConfig)
    (patient_symptom_data : Attrs) : Option Rat :=
  let expectations := disease_symptom.expectations
  if expectations.isEmpty then some 1
  else do
    let ws ← expectations.foldlM
      (fun (acc : Rat × Rat) (kv : String × Value) => do
        let match_score ← match_expectation kv.2 (pyGet patient_symptom_data kv.1)
        let weight : Rat := 1
        pure (acc.1 + weight, acc.2 + match_score * weight))
      ((0 : Rat), (0 : Rat))
    if ws.1 = 0 then pure 1 else pure (ws.2 / ws.1)

/-- A strong or partial match record (lines 223-233). -/
structure MatchedSymptom where
  symptom : String
  match_quality : Int
  importance : Int
deriving DecidableEq, Repr

/-- A missing important symptom record (lines 237-240). -/
structure MissingSymptom where
  symptom : String
  importance : Int
deriving DecidableEq, Repr

/-- A negative-match record (lines 202-205). -/
structure NegativeMatch where
  symptom : String
  note : String
deriving DecidableEq, Repr

/-- Running per-disease accumulator of `diagnose` (lines 184-189). -/
structure BAcc where
  total_score : Rat
  max_possible_score : Rat
  matched_symptoms : List MatchedSymptom
  missing_symptoms : List MissingSymptom
  partially_matched : List MatchedSymptom
  negative_matches : List NegativeMatch
deriving DecidableEq, Repr

/-- One output entry of Engine B (lines 274-284). -/
structure DiagnosisResult where
  disease : String
  common_name : String
  category : String
  confidence : Rat
  matched_symptoms : List MatchedSymptom
  partially_matched : List MatchedSymptom
  missing_symptoms : List MissingSymptom
  negative_matches : List NegativeMatch
  explanation : String
deriving DecidableEq, Repr

/-- The body of the per-symptom loop of `diagnose` (lines 191-240) as
a step on the accumulator. `Option.none` propagates the uncaught
`ZeroDivisionError` out of `match_expectation`. -/
def step_symptom (patient_symptom_names : List String) (patient_symptoms : Patient)
    (acc : BAcc) (entry : String × SymptomConfig) : Option BAcc :=
  let symptom_name := entry.1
  let symptom_config := entry.2
  let importance : Rat := symptom_config.importance.getD (1/2)
  if importance < 0 then
    let abs_importance := |importance|
    let acc1 := { acc with max_possible_score := acc.max_possible_score + abs_importance }
    if symptom_name ∉ patient_symptom_names then
      some { acc1 with
        total_score := acc1.total_score + abs_importance,
        negative_matches := acc1.negative_matches ++
          [⟨symptom_name,
            symptom_config.note.getD
              ("Absence of " ++ symptom_name ++ " supports this diagnosis")⟩] }
    else some acc1
  else
    let acc1 := { acc with max_possible_score := acc.max_possible_score + importance }
    if symptom_name ∈ patient_symptom_names then do
      let patient_data := (alist_get patient_symptoms symptom_name).getD []
      let match_quality ← calculate_symptom_match_score symptom_config patient_data
      let acc2 := { acc1 with total_score := acc1.total_score + importance * match_quality }
      if 8/10 ≤ match_quality then
        some { acc2 with matched_symptoms := acc2.matched_symptoms ++
          [⟨symptom_name, roundHalfEven (match_quality * 100),
            roundHalfEven (importance * 100)⟩] }
      else if 0 < match_quality then
        some { acc2 with partially_matched := acc2.partially_matched ++
          [⟨symptom_name, roundHalfEven (match_quality * 100),
            roundHalfEven (importance * 100)⟩] }
      else some acc2
    else
      if 7/10 ≤ importance then
        some { acc1 with missing_symptoms := acc1.missing_symptoms ++
          [⟨symptom_name, roundHalfEven (importance * 100)⟩] }
      else some acc1

/-- Scoring of one disease profile (the body of the outer loop of
`diagnose`, lines 177-284, after the empty-symptoms `continue`): the
built result entry plus the flag that decides whether it is appended
(false when there is no matched, partially-matched or negative-match
evidence, line 256). -/
def score_disease (patient_symptoms : Patient) (disease_name : String)
    (disease_data : DiseaseData) : Option (DiagnosisResult × Bool) := do
  let patient_symptom_names := patient_symptoms.map Prod.fst
  let prevalence : Rat := disease_data.prevalence.getD (1/20)
  let acc ← disease_data.symptoms.foldlM
    (step_symptom patient_symptom_names patient_symptoms) ⟨0, 0, [], [], [], []⟩
  let base_confidence : Rat :=
    if 0 < acc.max_possible_score then acc.total_score / acc.max_possible_score * 100
    else 0
  let prevalence_factor : Rat := 1 + prevalence * (1/5)
  let confidence : Rat := min 100 (base_confidence * prevalence_factor)
  let incl : Bool :=
    !(acc.matched_symptoms.isEmpty && acc.partially_matched.isEmpty &&
      acc.negative_matches.isEmpty)
  let explanation_parts : List String :=
    (if acc.matched_symptoms.isEmpty then [] else
      ["Strong match on: " ++
        String.intercalate ", " (acc.matched_symptoms.map (fun m => m.symptom))]) ++
    (if acc.partially_matched.isEmpty then [] else
      ["Partial match on: " ++
        String.intercalate ", " (acc.partially_matched.map (fun m => m.symptom))]) ++
    acc.negative_matches.map (fun nm => nm.note) ++
    (if acc.missing_symptoms.isEmpty then [] else
      ["Consider checking for: " ++
        String.intercalate ", " (acc.missing_symptoms.map (fun m => m.symptom))])
  pure (⟨disease_name, disease_data.common_name.getD disease_name,
         disease_data.category.getD "General", round1 confidence,
         acc.matched_symptoms, acc.partially_matched, acc.missing_symptoms,
         acc.negative_matches, String.intercalate " | " explanation_parts⟩,
        incl)

/-- Model of `diagnose` (lines 142-289), with the loaded profiles passed
explicitly: score every profile with a non-empty symptom map, keep the
entries with evidentiary support, stable-sort by descending
confidence. -/
def diagnose (disease_profiles : List (String × DiseaseData))
    (patient_symptoms : Patient) : Option (List DiagnosisResult) := do
  let results ← disease_profiles.foldlM
    (fun (acc : List DiagnosisResult) (p : String × DiseaseData) => do
      if p.2.symptoms.isEmpty then pure acc
      else
        let ri ← score_disease patient_symptoms p.1 p.2
        pure (if ri.2 then acc ++ [ri.1] else acc))
    []
  pure (sortDesc (fun r => r.confidence) results)

/-- Model of `get_differential_diagnosis` (lines 292-314): filter the ranked
list by minimum confidence, return the first `top_n`. -/
def get_differential_diagnosis (disease_profiles : List (String × DiseaseData))
    (patient_symptoms : Patient) (top_n : Nat) (min_confidence : Rat) :
    Option (List DiagnosisResult) := do
  let all_diagnoses ← diagnose disease_profiles patient_symptoms
  let filtered := all_diagnoses.filter (fun d => min_confidence ≤ d.confidence)
  pure (filtered.take top_n)

end EngineB


theorem roundHalfEven_low (q : Rat) (n : Int) (h1 : (n : Rat) ≤ q)
    (h2 : q < (n : Rat) + 1/2) : roundHalfEven q = n := by
  have hf : ⌊q⌋ = n := Int.floor_eq_iff.mpr ⟨h1, by linarith⟩
  simp only [roundHalfEven, hf]
  rw [if_pos (by linarith)]

theorem roundHalfEven_high (q : Rat) (n : Int) (h1 : (n : Rat) + 1/2 < q)
    (h2 : q < (n : Rat) + 1) : roundHalfEven q = n + 1 := by
  have hf : ⌊q⌋ = n := Int.floor_eq_iff.mpr ⟨by linarith, by linarith⟩
  simp only [roundHalfEven, hf]
  rw [if_neg (by linarith), if_pos (by linarith)]

section Claims

open EngineB

theorem match_expectation_num_range (mn mx a : Rat) :
    match_expectation (Value.list [Value.num mn, Value.num mx]) (Value.num a) =
      range_score mn mx (Value.num a) := rfl

theorem match_expectation_str_range (mn mx : Rat) (s : String) :
    match_expectation (Value.list [Value.num mn, Value.num mx]) (Value.str s) =
      range_score mn mx (Value.str s) := rfl

theorem range_score_num (mn mx a : Rat) :
    range_score mn mx (Value.num a) =
      (if mn ≤ a ∧ a ≤ mx then some 1
       else if a < mn then
         (if mn = 0 then Option.none
          else some (max 0 (1 - ((mn - a) / mn) * (1/2))))
       else
         (if mx = 0 then Option.none
          else some (max 0 (1 - ((a - mx) / mx) * (1/2))))) := rfl

/-- C2: `match_expectation` satisfies the §4.3 definition: an absent
actual always scores 0.0; for a two-element numeric range an in-range
actual scores 1.0 and an out-of-range actual scores
`max(0, 1 - distance/boundary * 0.5)` with the violated bound as the
boundary (stated where that division is defined, i.e. the boundary is
non-zero), with non-numeric actuals scoring 0.0; a non-range list
scores 1.0 exactly on membership; a boolean expected coerces string
actuals "true"/"yes"/"1" case-insensitively and compares equality; and
the four concrete examples of §8 hold. -/
theorem C2_match_expectation_spec :
    (∀ e : Value, match_expectation e Value.vnone = some 0) ∧
    (∀ mn mx a : Rat, mn ≤ a → a ≤ mx →
      match_expectation (Value.list [Value.num mn, Value.num mx]) (Value.num a) = some 1) ∧
    (∀ mn mx a : Rat, a < mn → mn ≠ 0 →
      match_expectation (Value.list [Value.num mn, Value.num mx]) (Value.num a) =
        some (max 0 (1 - ((mn - a) / mn) * (1/2)))) ∧
    (∀ mn mx a : Rat, mn ≤ mx → mx < a → mx ≠ 0 →
      match_expectation (Value.list [Value.num mn, Value.num mx]) (Value.num a) =
        some (max 0 (1 - ((a - mx) / mx) * (1/2)))) ∧
    (∀ mn mx : Rat, ∀ v : Value, pyFloat v = Option.none → v ≠ Value.vnone →
      match_expectation (Value.list [Value.num mn, Value.num mx]) v = some 0) ∧
    (∀ (es : List Value) (a : Value), isRange es = false → a ≠ Value.vnone →
      (match_expectation (Value.list es) a = some 1 ↔ es.any (fun e => pyEq a e) = true) ∧
      (es.any (fun e => pyEq a e) = false → match_expectation (Value.list es) a = some 0)) ∧
    (∀ b ab : Bool, match_expectation (Value.bool b) (Value.bool ab) =
      some (if ab == b then 1 else 0)) ∧
    (∀ (b : Bool) (s : String), match_expectation (Value.bool b) (Value.str s) =
      some (if (["true", "yes", "1"].contains (pyLower s)) == b then 1 else 0)) ∧
    match_expectation (Value.list [Value.num 98, Value.num (502/5)]) (Value.num 99) = some 1 ∧
    (∃ q : Rat, match_expectation (Value.list [Value.num 98, Value.num (502/5)])
        (Value.num 105) = some q ∧ 0 < q ∧ q < 1) ∧
    match_expectation (Value.bool true) (Value.str "yes") = some 1 ∧
    match_expectation (Value.list [Value.str "mild", Value.str "severe"])
      (Value.str "moderate") = some 0 := by
  refine ⟨?_, ?_, ?_, ?_, ?_, ?_, ?_, ?_, ?_, ?_, ?_, ?_⟩
  · intro e; rfl
  · intro mn mx a h1 h2
    rw [match_expectation_num_range, range_score_num, if_pos ⟨h1, h2⟩]
  · intro mn mx a h1 h0
    rw [match_expectation_num_range, range_score_num,
      if_neg (fun hc => absurd h1 (not_lt.mpr hc.1)), if_pos h1, if_neg h0]
  · intro mn mx a hle h1 h0
    rw [match_expectation_num_range, range_score_num,
      if_neg (fun hc => absurd h1 (not_lt.mpr hc.2)),
      if_neg (not_lt.mpr (le_trans hle (le_of_lt h1))), if_neg h0]
  · intro mn mx v hpf hv
    cases v with
    | vnone => exact absurd rfl hv
    | num q => simp [pyFloat] at hpf
    | bool b => simp [pyFloat] at hpf
    | str s =>
        rw [match_expectation_str_range]
        simp only [range_score, hpf]
    | list vs => rfl
  · intro es a hr ha
    have hnone : isNone a = false := by
      cases a with
      | vnone => exact absurd rfl ha
      | num q => rfl
      | str s => rfl
      | bool b => rfl
      | list vs => rfl
    have key : match_expectation (Value.list es) a =
        some (if es.any (fun e => pyEq a e) then 1 else 0) := by
      simp only [match_expectation, hnone, Bool.false_eq_true, if_false, hr]
    refine ⟨?_, ?_⟩
    · rw [key]
      cases hany : es.any (fun e => pyEq a e) <;> simp [hany]
    · intro hany
      rw [key, hany]
      simp
  · intro b ab; rfl
  · intro b s; rfl
  · rw [match_expectation_num_range, range_score_num]
    norm_num
  · refine ⟨981/1004, ?_, by norm_num, by norm_num⟩
    rw [match_expectation_num_range, range_score_num]
    norm_num
  · decide
  · decide

/-- Witness for C2 at concrete inputs: the normal-range example, two
out-of-range partial-credit evaluations, a non-numeric actual against
a range, and list membership. -/
theorem C2_match_expectation_spec_witness :
    match_expectation (Value.list [Value.num 98, Value.num (502/5)]) (Value.num 99) =
      some 1 ∧
    match_expectation (Value.list [Value.num 98, Value.num (502/5)]) (Value.num 90) =
      some (max 0 (1 - ((98 - 90) / 98) * (1/2))) ∧
    match_expectation (Value.list [Value.num 98, Value.num (502/5)]) (Value.num 105) =
      some (max 0 (1 - ((105 - 502/5) / (502/5)) * (1/2))) ∧
    match_expectation (Value.list [Value.num 98, Value.num (502/5)])
      (Value.str "abc") = some 0 ∧
    match_expectation (Value.list [Value.str "mild", Value.str "severe"])
      (Value.str "mild") = some 1 :=
  ⟨C2_match_expectation_spec.2.1 98 (502/5) 99 (by norm_num) (by norm_num),
   C2_match_expectation_spec.2.2.1 98 (502/5) 90 (by norm_num) (by norm_num),
   C2_match_expectation_spec.2.2.2.1 98 (502/5) 105 (by norm_num) (by norm_num)
     (by norm_num),
   C2_match_expectation_spec.2.2.2.2.1 98 (502/5) (Value.str "abc") (by decide)
     (fun h => Value.noConfusion h),
   ((C2_match_expectation_spec.2.2.2.2.2.1 [Value.str "mild", Value.str "severe"]
     (Value.str "mild") (by decide) (fun h => Value.noConfusion h)).1).mpr (by decide)⟩

theorem range_score_none_elim (mn mx : Rat) (v : Value)
    (h : range_score mn mx v = Option.none) : mn = 0 ∨ mx = 0 := by
  cases hpf : pyFloat v with
  | none => simp [range_score, hpf] at h
  | some an =>
      simp only [range_score, hpf] at h
      split_ifs at h with h1 h2 h3 h4 <;> simp_all

theorem range_score_isSome (mn mx : Rat) (v : Value) (hmn : mn ≠ 0) (hmx : mx ≠ 0) :
    (range_score mn mx v).isSome = true := by
  cases hpf : pyFloat v with
  | none => simp [range_score, hpf]
  | some an =>
      simp only [range_score, hpf]
      split_ifs <;> simp_all

theorem bool_score_isSome (b : Bool) (v : Value) : (bool_score b v).isSome = true := by
  cases v <;> simp [bool_score]

theorem eq_score_eq (e v : Value) (hne : ∀ s1 s2, e = Value.str s1 → v = Value.str s2 → False) :
    eq_score e v = some (if pyEq e v then 1 else 0) := by
  cases hpe : pyEq e v with
  | true => simp [eq_score, hpe]
  | false =>
      simp only [eq_score, hpe, Bool.false_eq_true, if_false]
      cases e with
      | str s1 =>
          cases v with
          | str s2 => exact (hne s1 s2 rfl rfl).elim
          | vnone => rfl
          | num q => rfl
          | bool b => rfl
          | list l => rfl
      | vnone => rfl
      | num q => rfl
      | bool b => rfl
      | list l => rfl

theorem eq_score_isSome (e v : Value) : (eq_score e v).isSome = true := by
  cases hpe : pyEq e v with
  | true => simp [eq_score, hpe]
  | false =>
      simp only [eq_score, hpe, Bool.false_eq_true, if_false]
      cases e with
      | str s1 => cases v <;> rfl
      | vnone => rfl
      | num q => rfl
      | bool b => rfl
      | list l => rfl

theorem match_expectation_none_elim (e a : Value)
    (h : match_expectation e a = Option.none) :
    ∃ l, e = Value.list l ∧ isRange l = true ∧
      (numOf (l.getD 0 Value.vnone) = 0 ∨ numOf (l.getD 1 Value.vnone) = 0) := by
  cases hna : isNone a with
  | true => simp [match_expectation, hna] at h
  | false =>
      cases e with
      | list es =>
          simp only [match_expectation, hna, Bool.false_eq_true, if_false] at h
          by_cases hr : isRange es
          · refine ⟨es, rfl, hr, ?_⟩
            rw [if_pos hr] at h
            exact range_score_none_elim _ _ _ h
          · simp [hr] at h
      | vnone =>
          simp only [match_expectation, hna, Bool.false_eq_true, if_false] at h
          have := eq_score_isSome Value.vnone a
          simp [h] at this
      | num q =>
          simp only [match_expectation, hna, Bool.false_eq_true, if_false] at h
          have := eq_score_isSome (Value.num q) a
          simp [h] at this
      | str s =>
          simp only [match_expectation, hna, Bool.false_eq_true, if_false] at h
          have := eq_score_isSome (Value.str s) a
          simp [h] at this
      | bool b =>
          simp only [match_expectation, hna, Bool.false_eq_true, if_false] at h
          have := bool_score_isSome b a
          simp [h] at this

/-- C5 (amended): both engines are exception-free except for one case:
in Engine A out-of-range resolved indices are skipped (counting over a
row only ever consults indices below the row length), and in Engine B
`match_expectation` returns a score for every expected/actual
combination EXCEPT that an out-of-range numeric actual against a range
whose violated bound is zero raises an uncaught `ZeroDivisionError`
(the `except` clause catches only `ValueError`/`TypeError`);
unrecognized expected-value shapes fall through to the exact-equality
default. -/
theorem C5_defensive_amended :
    (∀ (symptom_indices row : List Nat),
       EngineA.matched_count symptom_indices row =
         EngineA.matched_count
           (symptom_indices.filter (fun i => decide (i < row.length))) row) ∧
    (∀ e a : Value, match_expectation e a = Option.none →
       ∃ l, e = Value.list l ∧ isRange l = true ∧
         (numOf (l.getD 0 Value.vnone) = 0 ∨ numOf (l.getD 1 Value.vnone) = 0)) ∧
    (∀ e a : Value,
       (∀ l, e = Value.list l → isRange l = true →
         numOf (l.getD 0 Value.vnone) ≠ 0 ∧ numOf (l.getD 1 Value.vnone) ≠ 0) →
       (match_expectation e a).isSome = true) ∧
    (∀ (q : Rat) (a : Value), a ≠ Value.vnone →
       match_expectation (Value.num q) a = some (if pyEq (Value.num q) a then 1 else 0)) ∧
    (∀ a : Value, a ≠ Value.vnone →
       match_expectation Value.vnone a = some (if pyEq Value.vnone a then 1 else 0)) := by
  refine ⟨?_, match_expectation_none_elim, ?_, ?_, ?_⟩
  · intro idxs row
    induction idxs with
    | nil => rfl
    | cons i is ih =>
        unfold EngineA.matched_count at ih ⊢
        by_cases h : i < row.length
        · rw [show (i :: is).filter (fun j => decide (j < row.length)) =
              i :: is.filter (fun j => decide (j < row.length)) from by
                simp [List.filter_cons, h],
            List.countP_cons, List.countP_cons, ih]
        · rw [show (i :: is).filter (fun j => decide (j < row.length)) =
              is.filter (fun j => decide (j < row.length)) from by
                simp [List.filter_cons, h],
            List.countP_cons, ih]
          have hp : (decide (i < row.length) && (row.getD i 0 == 1)) = false := by
            simp [h]
          simp only [hp, Bool.false_eq_true, if_false, Nat.add_zero]
  · intro e a hz
    cases hna : isNone a with
    | true => simp [match_expectation, hna]
    | false =>
        cases e with
        | list es =>
            simp only [match_expectation, hna, Bool.false_eq_true, if_false]
            by_cases hr : isRange es
            · rcases hz es rfl hr with ⟨h0, h1⟩
              rw [if_pos hr]
              exact range_score_isSome _ _ _ h0 h1
            · simp [hr]
        | vnone =>
            simp only [match_expectation, hna, Bool.false_eq_true, if_false]
            exact eq_score_isSome Value.vnone a
        | num q =>
            simp only [match_expectation, hna, Bool.false_eq_true, if_false]
            exact eq_score_isSome (Value.num q) a
        | str s =>
            simp only [match_expectation, hna, Bool.false_eq_true, if_false]
            exact eq_score_isSome (Value.str s) a
        | bool b =>
            simp only [match_expectation, hna, Bool.false_eq_true, if_false]
            exact bool_score_isSome b a
  · intro q a ha
    have hna : isNone a = false := by cases a <;> first | exact absurd rfl ha | rfl
    simp only [match_expectation, hna, Bool.false_eq_true, if_false]
    exact eq_score_eq (Value.num q) a (fun s1 s2 hc => by cases hc)
  · intro a ha
    have hna : isNone a = false := by cases a <;> first | exact absurd rfl ha | rfl
    simp only [match_expectation, hna, Bool.false_eq_true, if_false]
    exact eq_score_eq Value.vnone a (fun s1 s2 hc => by cases hc)

/-- C5 counterexample: the claim asserts `matchExpectation` is total
"including numeric ranges whose nearest bound is 0"; but on the range
`[0, 10]` with actual `-5` the code divides `distance / min_val` with
`min_val == 0` and the resulting `ZeroDivisionError` is not caught
(modelled as `Option.none`). -/
theorem C5_counterexample :
    match_expectation (Value.list [Value.num 0, Value.num 10]) (Value.num (-5)) =
      Option.none := rfl

/-- Witness for C5 (amended) at concrete inputs. -/
theorem C5_defensive_amended_witness :
    EngineA.matched_count [0, 5] [1] =
      EngineA.matched_count ([0, 5].filter (fun i => decide (i < [1].length))) [1] ∧
    (∃ l, (Value.list [Value.num 0, Value.num 10] : Value) = Value.list l ∧
       isRange l = true ∧
       (numOf (l.getD 0 Value.vnone) = 0 ∨ numOf (l.getD 1 Value.vnone) = 0)) ∧
    (match_expectation (Value.list [Value.num 2, Value.num 10])
      (Value.num (-5))).isSome = true ∧
    match_expectation (Value.num 7) (Value.str "x") =
      some (if pyEq (Value.num 7) (Value.str "x") then 1 else 0) ∧
    match_expectation Value.vnone (Value.num 3) =
      some (if pyEq Value.vnone (Value.num 3) then 1 else 0) :=
  ⟨C5_defensive_amended.1 [0, 5] [1],
   C5_defensive_amended.2.1 _ (Value.num (-5)) (by decide),
   C5_defensive_amended.2.2.1 _ (Value.num (-5))
     (fun l hl hr => by
       cases hl
       exact ⟨by norm_num [numOf, List.getD], by norm_num [numOf, List.getD]⟩),
   C5_defensive_amended.2.2.2.1 7 (Value.str "x") (fun h => Value.noConfusion h),
   C5_defensive_amended.2.2.2.2 (Value.num 3) (fun h => Value.noConfusion h)⟩

theorem findIdx?_eq_none_of_forall {α : Type} (p : α → Bool) (l : List α)
    (h : ∀ x ∈ l, p x = false) : ∀ i, l.findIdx? p i = Option.none := by
  induction l with
  | nil => intro i; exact List.findIdx?_nil
  | cons a as ih =>
      intro i
      rw [List.findIdx?_cons, if_neg (by simp [h a (List.mem_cons_self a as)])]
      exact ih (fun x hx => h x (List.mem_cons_of_mem a hx)) (i + 1)

/-- C6: unmatched symptom names are silently dropped during Engine A
resolution (dropping an unresolvable name from the query changes
nothing), and a query whose resolution is empty makes `diagnose`
return the empty list immediately. -/
theorem C6_unmatched_names_dropped :
    (∀ (symptom_columns : List String) (s : String) (symptoms : List String),
       EngineA.normalize_symptom_name s ∉
         symptom_columns.map EngineA.normalize_symptom_name →
       EngineA.find_symptom_indices (s :: symptoms) symptom_columns =
         EngineA.find_symptom_indices symptoms symptom_columns) ∧
    (∀ (symptoms : List String) (top_n : Nat) (symptom_columns : List String)
       (rows : List (String × List Nat)),
       EngineA.find_symptom_indices symptoms symptom_columns = [] →
       EngineA.diagnose symptoms top_n symptom_columns rows = []) := by
  constructor
  · intro cols s symptoms h
    have hnone : (cols.map EngineA.normalize_symptom_name).findIdx?
        (fun c => c == EngineA.normalize_symptom_name s) = Option.none := by
      apply findIdx?_eq_none_of_forall
      intro x hx
      simp only [beq_eq_false_iff_ne, ne_eq]
      intro hxe
      exact h (hxe ▸ hx)
    simp only [EngineA.find_symptom_indices, List.filterMap_cons, hnone]
  · intro symptoms top_n cols rows h
    simp [EngineA.diagnose, h]

/-- Witness for C6 at concrete inputs. -/
theorem C6_unmatched_names_dropped_witness :
    EngineA.find_symptom_indices ["xyz", "Fever"] ["fever"] =
      EngineA.find_symptom_indices ["Fever"] ["fever"] ∧
    EngineA.diagnose ["xyz"] 5 ["fever"] [("A", [1])] = [] :=
  ⟨C6_unmatched_names_dropped.1 ["fever"] "xyz" ["Fever"] (by decide),
   C6_unmatched_names_dropped.2 ["xyz"] 5 ["fever"] [("A", [1])] (by decide)⟩

/-- The C9 invariant on accumulator cells. -/
def goodStats (s : EngineA.StatsA) : Prop :=
  1 ≤ s.case_count ∧ s.case_count ≤ s.match_count

theorem updateAssoc_forall (P : EngineA.StatsA → Prop)
    (acc : List (String × EngineA.StatsA)) (d : String)
    (f : EngineA.StatsA → EngineA.StatsA)
    (hacc : ∀ e ∈ acc, P e.2) (hf0 : P (f EngineA.initStats))
    (hf : ∀ s, P s → P (f s)) :
    ∀ e ∈ EngineA.updateAssoc acc d f, P e.2 := by
  induction acc with
  | nil =>
      intro e he
      simp only [EngineA.updateAssoc, List.mem_singleton] at he
      rw [he]
      exact hf0
  | cons kv rest ih =>
      obtain ⟨k, v⟩ := kv
      intro e he
      simp only [EngineA.updateAssoc] at he
      by_cases hk : k = d
      · rw [if_pos hk] at he
        rcases List.mem_cons.mp he with rfl | he2
        · exact hf v (hacc (k, v) (List.mem_cons_self _ _))
        · exact hacc e (List.mem_cons_of_mem _ he2)
      · rw [if_neg hk] at he
        rcases List.mem_cons.mp he with rfl | he2
        · exact hacc (k, v) (List.mem_cons_self _ _)
        · exact ih (fun x hx => hacc x (List.mem_cons_of_mem _ hx)) e he2

theorem stepRow_forall (idxs : List Nat) (freq : String → Nat)
    (acc : List (String × EngineA.StatsA)) (dr : String × List Nat)
    (hacc : ∀ e ∈ acc, goodStats e.2) :
    ∀ e ∈ EngineA.stepRow idxs freq acc dr, goodStats e.2 := by
  simp only [EngineA.stepRow]
  by_cases hm : EngineA.matched_count idxs dr.2 = 0
  · rw [if_pos hm]
    exact hacc
  · rw [if_neg hm]
    have h1 : 1 ≤ EngineA.matched_count idxs dr.2 := Nat.one_le_iff_ne_zero.mpr hm
    apply updateAssoc_forall _ _ _ _ hacc
    · exact ⟨by simp [EngineA.initStats], by simp [EngineA.initStats]; omega⟩
    · intro s hs
      obtain ⟨hs1, hs2⟩ := hs
      constructor
      · show 1 ≤ s.case_count + 1
        omega
      · show s.case_count + 1 ≤ s.match_count + EngineA.matched_count idxs dr.2
        omega

theorem foldl_stepRow_forall (idxs : List Nat) (freq : String → Nat)
    (rows : List (String × List Nat)) :
    ∀ (acc : List (String × EngineA.StatsA)), (∀ e ∈ acc, goodStats e.2) →
      ∀ e ∈ rows.foldl (EngineA.stepRow idxs freq) acc, goodStats e.2 := by
  induction rows with
  | nil =>
      intro acc hacc
      simpa using hacc
  | cons r rs ih =>
      intro acc hacc
      rw [List.foldl_cons]
      exact ih _ (stepRow_forall idxs freq acc r hacc)

/-- C9: every record returned by Engine A has `match_count ≥
case_count ≥ 1`: a row is only counted when it matches at least one
resolved symptom, and each counted row adds its matched count (at
least 1) to `match_count`. -/
theorem C9_match_count_ge_case_count (symptoms : List String) (top_n : Nat)
    (symptom_columns : List String) (rows : List (String × List Nat))
    (r : EngineA.DiseaseMatch)
    (hr : r ∈ EngineA.diagnose symptoms top_n symptom_columns rows) :
    1 ≤ r.case_count ∧ r.case_count ≤ r.match_count := by
  unfold EngineA.diagnose at hr
  by_cases h : EngineA.find_symptom_indices symptoms symptom_columns = []
  · rw [if_pos h] at hr
    cases hr
  · rw [if_neg h] at hr
    have hr2 := List.mem_of_mem_take hr
    rw [mem_sortDesc] at hr2
    unfold EngineA.results_list at hr2
    rcases List.mem_map.mp hr2 with ⟨e, he, rfl⟩
    have hgood := foldl_stepRow_forall _ _ rows [] (by intro x hx; cases hx) e he
    exact ⟨hgood.1, hgood.2⟩

theorem stepRow_single_eval :
    EngineA.stepRow [0] (EngineA.disease_frequencies [("A", [1])]) [] ("A", [1]) =
      [("A", ⟨30003/100, 1, 1, 1, 1⟩)] := by
  have hf : EngineA.disease_frequencies [("A", [1])] "A" = 1 := by decide
  simp only [EngineA.stepRow, show EngineA.matched_count [0] [1] = 1 from by decide]
  norm_num [EngineA.updateAssoc, EngineA.initStats, hf]

theorem diagnoseA_single_eval :
    EngineA.diagnose ["s"] 10 ["s"] [("A", [1])] =
      [⟨"A", 30, 1, 1, 1, 100, 1, 1⟩] := by
  have hidx : EngineA.find_symptom_indices ["s"] ["s"] = [0] := by decide
  have hf : EngineA.disease_frequencies [("A", [1])] "A" = 1 := by decide
  simp only [EngineA.diagnose, hidx]
  rw [if_neg (by decide)]
  simp only [EngineA.results_list, List.foldl_cons, List.foldl_nil, stepRow_single_eval,
    List.map_cons, List.map_nil]
  simp only [sortDesc, ordInsertDesc, List.take]
  simp only [EngineA.finalizeA, hf]
  norm_num [round2, roundHalfEven]

/-- Witness for C9 at a concrete dataset and query. -/
theorem C9_match_count_ge_case_count_witness :
    1 ≤ (⟨"A", 30, 1, 1, 1, 100, 1, 1⟩ : EngineA.DiseaseMatch).case_count ∧
      (⟨"A", 30, 1, 1, 1, 100, 1, 1⟩ : EngineA.DiseaseMatch).case_count ≤
      (⟨"A", 30, 1, 1, 1, 100, 1, 1⟩ : EngineA.DiseaseMatch).match_count := by
  apply C9_match_count_ge_case_count ["s"] 10 ["s"] [("A", [1])]
  rw [diagnoseA_single_eval]
  exact List.mem_singleton.mpr rfl

theorem list_sum_eq_range_getD (row : List Nat) :
    row.sum = ((List.range row.length).map (fun j => row.getD j 0)).sum := by
  induction row with
  | nil => rfl
  | cons v t ih =>
      rw [List.length_cons, List.range_succ_eq_map, List.map_cons, List.sum_cons,
        List.sum_cons, List.map_map]
      have h2 : (List.range t.length).map ((fun j => (v :: t).getD j 0) ∘ Nat.succ) =
          (List.range t.length).map (fun j => t.getD j 0) := by
        apply List.map_congr_left
        intro a ha
        rfl
      rw [h2, ← ih]
      rfl

theorem matched_count_le_sum (idxs row : List Nat) (h : idxs.Nodup) :
    EngineA.matched_count idxs row ≤ row.sum := by
  classical
  have hm : EngineA.matched_count idxs row =
      (idxs.filter (fun idx => decide (idx < row.length) && (row.getD idx 0 == 1))).length := by
    rw [EngineA.matched_count, List.countP_eq_length_filter]
  have hSnd : (idxs.filter (fun idx => decide (idx < row.length) && (row.getD idx 0 == 1))).Nodup :=
    h.filter _
  have hmemS : ∀ i ∈ idxs.filter (fun idx => decide (idx < row.length) && (row.getD idx 0 == 1)),
      i < row.length ∧ row.getD i 0 = 1 := by
    intro i hi
    have hp := List.of_mem_filter hi
    simp only [Bool.and_eq_true, decide_eq_true_eq, beq_iff_eq] at hp
    exact hp
  set S : List Nat := idxs.filter (fun idx => decide (idx < row.length) && (row.getD idx 0 == 1))
  have hcard : S.length = S.toFinset.card := (List.toFinset_card_of_nodup hSnd).symm
  have hsub : S.toFinset ⊆ (List.range row.length).toFinset := by
    intro i hi
    rw [List.mem_toFinset] at hi ⊢
    exact List.mem_range.mpr (hmemS i hi).1
  have h1 : S.toFinset.card ≤ ∑ i ∈ S.toFinset, row.getD i 0 := by
    calc S.toFinset.card = ∑ _i ∈ S.toFinset, 1 := by simp
    _ ≤ ∑ i ∈ S.toFinset, row.getD i 0 := by
        apply Finset.sum_le_sum
        intro i hi
        rw [List.mem_toFinset] at hi
        rw [(hmemS i hi).2]
  have h2 : ∑ i ∈ S.toFinset, row.getD i 0 ≤
      ∑ i ∈ (List.range row.length).toFinset, row.getD i 0 :=
    Finset.sum_le_sum_of_subset hsub
  have h3 : ∑ i ∈ (List.range row.length).toFinset, row.getD i 0 = row.sum := by
    rw [List.sum_toFinset _ (List.nodup_range _), ← list_sum_eq_range_getD]
  omega

/-- C3: in Engine A, a case row matching none of the resolved symptoms
contributes nothing at all (not even to `case_count`); otherwise the
disease gains one `case_count`, `matched` on `match_count`, and its
total score grows by exactly `(matched/len)*100`, doubled on an exact
match (with `exact_matches` incremented), further multiplied by 1.5
when the row has exactly one symptom present and it is among the
matched ones (bonuses stack multiplicatively), and finally multiplied
by the frequency weight `1 + frequency/10000`. Stated for duplicate-free
resolved index lists (duplicate query names aside, resolution yields
each column once). -/
theorem C3_row_contribution (symptom_indices : List Nat) (freq : String → Nat)
    (acc : List (String × EngineA.StatsA)) (d : String) (row : List Nat)
    (hnd : symptom_indices.Nodup) :
    (EngineA.matched_count symptom_indices row = 0 →
      EngineA.stepRow symptom_indices freq acc (d, row) = acc) ∧
    (0 < EngineA.matched_count symptom_indices row →
      EngineA.stepRow symptom_indices freq acc (d, row) =
        EngineA.updateAssoc acc d (fun s =>
          { s with
            case_count := s.case_count + 1,
            match_count := s.match_count + EngineA.matched_count symptom_indices row,
            exact_matches := s.exact_matches +
              (if EngineA.matched_count symptom_indices row = symptom_indices.length
               then 1 else 0),
            single_symptom_matches := s.single_symptom_matches +
              (if row.sum = 1 ∧ 1 ≤ EngineA.matched_count symptom_indices row
               then 1 else 0),
            total_score := s.total_score +
              (((EngineA.matched_count symptom_indices row : Rat) /
                  (symptom_indices.length : Rat)) * 100) *
                (if EngineA.matched_count symptom_indices row = symptom_indices.length
                 then 2 else 1) *
                (if row.sum = 1 ∧ 1 ≤ EngineA.matched_count symptom_indices row
                 then 3/2 else 1) *
                (1 + (freq d : Rat) / 10000) })) := by
  constructor
  · intro h0
    simp only [EngineA.stepRow]
    rw [if_pos h0]
  · intro hpos
    have hne : EngineA.matched_count symptom_indices row ≠ 0 :=
      Nat.pos_iff_ne_zero.mp hpos
    have h1le : 1 ≤ EngineA.matched_count symptom_indices row := hpos
    have hle := matched_count_le_sum symptom_indices row hnd
    simp only [EngineA.stepRow]
    rw [if_neg hne]
    congr 1
    funext s
    by_cases hex : EngineA.matched_count symptom_indices row = symptom_indices.length
    · have hexb : (EngineA.matched_count symptom_indices row ==
          symptom_indices.length) = true := beq_iff_eq.mpr hex
      by_cases hs : row.sum = 1
      · have hm1 : EngineA.matched_count symptom_indices row = 1 :=
          le_antisymm (hs ▸ hle) h1le
        have hsb : ((row.sum == 1) &&
            (EngineA.matched_count symptom_indices row == 1)) = true := by
          simp [hs, hm1]
        simp only [hexb, hsb, if_true, eq_true hex, eq_true (And.intro hs h1le)]
        all_goals (congr 1 <;> try ring)
      · have hsb : ((row.sum == 1) &&
            (EngineA.matched_count symptom_indices row == 1)) = false := by
          simp [hs]
        simp only [hexb, hsb, if_true, Bool.false_eq_true, if_false, eq_true hex,
          eq_false (fun hc => hs (And.left hc))]
        all_goals (congr 1 <;> try ring)
    · have hexb : (EngineA.matched_count symptom_indices row ==
          symptom_indices.length) = false := beq_eq_false_iff_ne.mpr hex
      by_cases hs : row.sum = 1
      · have hm1 : EngineA.matched_count symptom_indices row = 1 :=
          le_antisymm (hs ▸ hle) h1le
        have hsb : ((row.sum == 1) &&
            (EngineA.matched_count symptom_indices row == 1)) = true := by
          simp [hs, hm1]
        simp only [hexb, hsb, if_true, Bool.false_eq_true, if_false, eq_false hex,
          eq_true (And.intro hs h1le)]
        all_goals (congr 1 <;> try ring)
      · have hsb : ((row.sum == 1) &&
            (EngineA.matched_count symptom_indices row == 1)) = false := by
          simp [hs]
        simp only [hexb, hsb, Bool.false_eq_true, if_false, eq_false hex,
          eq_false (fun hc => hs (And.left hc))]
        all_goals (congr 1 <;> try ring)

/-- Witness for C3 at a concrete row, accumulator and query. -/
theorem C3_row_contribution_witness :
    EngineA.stepRow [0] (fun _ => 0) [] ("A", [0]) = [] ∧
    EngineA.stepRow [0] (fun _ => 0) [] ("A", [1]) =
      EngineA.updateAssoc [] "A" (fun s =>
        { s with
          case_count := s.case_count + 1,
          match_count := s.match_count + EngineA.matched_count [0] [1],
          exact_matches := s.exact_matches +
            (if EngineA.matched_count [0] [1] = ([0] : List Nat).length then 1 else 0),
          single_symptom_matches := s.single_symptom_matches +
            (if ([1] : List Nat).sum = 1 ∧ 1 ≤ EngineA.matched_count [0] [1]
             then 1 else 0),
          total_score := s.total_score +
            (((EngineA.matched_count [0] [1] : Rat) / (([0] : List Nat).length : Rat)) *
                100) *
              (if EngineA.matched_count [0] [1] = ([0] : List Nat).length then 2 else 1) *
              (if ([1] : List Nat).sum = 1 ∧ 1 ≤ EngineA.matched_count [0] [1]
               then 3/2 else 1) *
              (1 + (((fun (_ : String) => (0 : Nat)) "A" : Nat) : Rat) / 10000) }) :=
  ⟨(C3_row_contribution [0] (fun _ => 0) [] "A" [0] (by decide)).1 (by decide),
   (C3_row_contribution [0] (fun _ => 0) [] "A" [1] (by decide)).2 (by decide)⟩

/-- C8 (amended): for every query input resolving to at least one
column and every positive `top_n`, Engine A returns at most `top_n`
records sorted by non-increasing score, the output is the stable
descending sort of the finalized accumulator list truncated to
`top_n`, and ties keep the accumulator order — the order in which each
disease contributed its FIRST MATCHING row — which is not in general
the dataset first-appearance order. -/
theorem C8_sorted_stable_truncated (symptoms : List String) (top_n : Nat)
    (symptom_columns : List String) (rows : List (String × List Nat))
    (h : EngineA.find_symptom_indices symptoms symptom_columns ≠ [])
    (hn : 0 < top_n) :
    (EngineA.diagnose symptoms top_n symptom_columns rows).length ≤ top_n ∧
    (EngineA.diagnose symptoms top_n symptom_columns rows).Pairwise
      (fun a b => b.score ≤ a.score) ∧
    EngineA.diagnose symptoms top_n symptom_columns rows =
      (sortDesc (fun r => r.score)
        (EngineA.results_list (EngineA.find_symptom_indices symptoms symptom_columns)
          rows)).take top_n ∧
    (∀ c : Rat,
      (sortDesc (fun r => r.score)
        (EngineA.results_list (EngineA.find_symptom_indices symptoms symptom_columns)
          rows)).filter (fun r => r.score == c) =
      (EngineA.results_list (EngineA.find_symptom_indices symptoms symptom_columns)
        rows).filter (fun r => r.score == c)) := by
  have hd : EngineA.diagnose symptoms top_n symptom_columns rows =
      (sortDesc (fun r => r.score)
        (EngineA.results_list (EngineA.find_symptom_indices symptoms symptom_columns)
          rows)).take top_n := by
    simp [EngineA.diagnose, h]
  refine ⟨?_, ?_, hd, fun c => filter_sortDesc _ c _⟩
  · rw [hd]
    exact List.length_take_le _ _
  · rw [hd]
    exact (pairwise_sortDesc _ _).sublist (List.take_sublist _ _)

theorem stepRow4_skip1 :
    EngineA.stepRow [0]
      (EngineA.disease_frequencies [("A", [0]), ("B", [1]), ("A", [1]), ("B", [0])])
      [] ("A", [0]) = [] := by
  simp [EngineA.stepRow, show EngineA.matched_count [0] [0] = 0 from by decide]

theorem stepRow4_addB :
    EngineA.stepRow [0]
      (EngineA.disease_frequencies [("A", [0]), ("B", [1]), ("A", [1]), ("B", [0])])
      [] ("B", [1]) = [("B", ⟨15003/50, 1, 1, 1, 1⟩)] := by
  have hf : EngineA.disease_frequencies
      [("A", [0]), ("B", [1]), ("A", [1]), ("B", [0])] "B" = 2 := by decide
  simp only [EngineA.stepRow, show EngineA.matched_count [0] [1] = 1 from by decide]
  norm_num [EngineA.updateAssoc, EngineA.initStats, hf]

theorem stepRow4_addA :
    EngineA.stepRow [0]
      (EngineA.disease_frequencies [("A", [0]), ("B", [1]), ("A", [1]), ("B", [0])])
      [("B", ⟨15003/50, 1, 1, 1, 1⟩)] ("A", [1]) =
      [("B", ⟨15003/50, 1, 1, 1, 1⟩), ("A", ⟨15003/50, 1, 1, 1, 1⟩)] := by
  have hf : EngineA.disease_frequencies
      [("A", [0]), ("B", [1]), ("A", [1]), ("B", [0])] "A" = 2 := by decide
  simp only [EngineA.stepRow, show EngineA.matched_count [0] [1] = 1 from by decide]
  norm_num [EngineA.updateAssoc, EngineA.initStats, hf,
    (by decide : ¬ ("B" = "A"))]

theorem stepRow4_skip2 :
    EngineA.stepRow [0]
      (EngineA.disease_frequencies [("A", [0]), ("B", [1]), ("A", [1]), ("B", [0])])
      [("B", ⟨15003/50, 1, 1, 1, 1⟩), ("A", ⟨15003/50, 1, 1, 1, 1⟩)] ("B", [0]) =
      [("B", ⟨15003/50, 1, 1, 1, 1⟩), ("A", ⟨15003/50, 1, 1, 1, 1⟩)] := by
  simp [EngineA.stepRow, show EngineA.matched_count [0] [0] = 0 from by decide]

theorem finalizeA4_B :
    EngineA.finalizeA 1
      (EngineA.disease_frequencies [("A", [0]), ("B", [1]), ("A", [1]), ("B", [0])])
      ("B", ⟨15003/50, 1, 1, 1, 1⟩) = ⟨"B", 3001/100, 1, 1, 2, 100, 1, 1⟩ := by
  have hf : EngineA.disease_frequencies
      [("A", [0]), ("B", [1]), ("A", [1]), ("B", [0])] "B" = 2 := by decide
  simp only [EngineA.finalizeA, hf]
  norm_num [round2, roundHalfEven]

theorem finalizeA4_A :
    EngineA.finalizeA 1
      (EngineA.disease_frequencies [("A", [0]), ("B", [1]), ("A", [1]), ("B", [0])])
      ("A", ⟨15003/50, 1, 1, 1, 1⟩) = ⟨"A", 3001/100, 1, 1, 2, 100, 1, 1⟩ := by
  have hf : EngineA.disease_frequencies
      [("A", [0]), ("B", [1]), ("A", [1]), ("B", [0])] "A" = 2 := by decide
  simp only [EngineA.finalizeA, hf]
  norm_num [round2, roundHalfEven]

theorem diagnoseA_tie_eval :
    EngineA.diagnose ["s"] 10 ["s"] [("A", [0]), ("B", [1]), ("A", [1]), ("B", [0])] =
      [⟨"B", 3001/100, 1, 1, 2, 100, 1, 1⟩, ⟨"A", 3001/100, 1, 1, 2, 100, 1, 1⟩] := by
  have hidx : EngineA.find_symptom_indices ["s"] ["s"] = [0] := by decide
  simp only [EngineA.diagnose, hidx]
  rw [if_neg (by decide)]
  simp only [EngineA.results_list, List.foldl_cons, List.foldl_nil, stepRow4_skip1,
    stepRow4_addB, stepRow4_addA, stepRow4_skip2, List.map_cons, List.map_nil,
    show ([0] : List Nat).length = 1 from rfl, finalizeA4_B, finalizeA4_A]
  simp only [sortDesc, ordInsertDesc]
  rw [if_pos (by norm_num)]
  rfl

/-- C8 counterexample: the claim says ties keep dataset
first-appearance order. In the dataset
`[("A",[0]), ("B",[1]), ("A",[1]), ("B",[0])]` disease A appears first
(index 0 before B at index 1), the two diseases end with equal scores,
yet the engine returns B before A — the accumulator is keyed by each
disease's first MATCHING row, and A's first matching row comes after
B's. -/
theorem C8_counterexample :
    (EngineA.diagnose ["s"] 10 ["s"]
        [("A", [0]), ("B", [1]), ("A", [1]), ("B", [0])]).map
      (fun r => r.disease) = ["B", "A"] ∧
    (EngineA.diagnose ["s"] 10 ["s"]
        [("A", [0]), ("B", [1]), ("A", [1]), ("B", [0])]).map
      (fun r => r.score) = [3001/100, 3001/100] ∧
    ([("A", [0]), ("B", [1]), ("A", [1]), ("B", [0])].map
        (Prod.fst (β := List Nat))).indexOf "A" <
      ([("A", [0]), ("B", [1]), ("A", [1]), ("B", [0])].map
        (Prod.fst (β := List Nat))).indexOf "B" := by
  refine ⟨?_, ?_, by decide⟩
  · rw [diagnoseA_tie_eval]
    rfl
  · rw [diagnoseA_tie_eval]
    rfl

/-- Witness for C8 (amended) at a concrete dataset. -/
theorem C8_sorted_stable_truncated_witness :
    (EngineA.diagnose ["s"] 10 ["s"] [("A", [1])]).length ≤ 10 ∧
    (EngineA.diagnose ["s"] 10 ["s"] [("A", [1])]).Pairwise
      (fun a b => b.score ≤ a.score) ∧
    EngineA.diagnose ["s"] 10 ["s"] [("A", [1])] =
      (sortDesc (fun r => r.score)
        (EngineA.results_list (EngineA.find_symptom_indices ["s"] ["s"])
          [("A", [1])])).take 10 ∧
    (∀ c : Rat,
      (sortDesc (fun r => r.score)
        (EngineA.results_list (EngineA.find_symptom_indices ["s"] ["s"])
          [("A", [1])])).filter (fun r => r.score == c) =
      (EngineA.results_list (EngineA.find_symptom_indices ["s"] ["s"])
        [("A", [1])]).filter (fun r => r.score == c)) :=
  C8_sorted_stable_truncated ["s"] 10 ["s"] [("A", [1])] (by decide) (by decide)

theorem stepB_eval1 :
    EngineB.step_symptom ["S"] [("S", [])] ⟨0, 0, [], [], [], []⟩
      ("S", ⟨some 1, Option.none, []⟩) =
      some ⟨1, 1, [⟨"S", 100, 100⟩], [], [], []⟩ := by
  simp only [EngineB.step_symptom, Option.getD_some]
  rw [if_neg (by norm_num : ¬ ((1 : Rat) < 0)), if_pos (show "S" ∈ ["S"] by decide)]
  have hc : EngineB.calculate_symptom_match_score ⟨some 1, Option.none, []⟩
      ((EngineB.alist_get [("S", ([] : EngineB.Attrs))] "S").getD []) = some 1 := rfl
  simp only [hc, Option.bind_eq_bind, Option.some_bind]
  rw [if_pos (by norm_num : (8 : Rat)/10 ≤ 1)]
  norm_num [roundHalfEven]

theorem scoreB_eval1 :
    EngineB.score_disease [("S", [])] "D"
      ⟨Option.none, Option.none, Option.none, [("S", ⟨some 1, Option.none, []⟩)]⟩ =
      some (⟨"D", "D", "General", 100, [⟨"S", 100, 100⟩], [], [], [],
        "Strong match on: S"⟩, true) := by
  simp only [EngineB.score_disease,
    show ([("S", ([] : EngineB.Attrs))].map Prod.fst) = ["S"] from rfl,
    List.foldlM_cons, List.foldlM_nil, stepB_eval1, Option.bind_eq_bind,
    Option.some_bind, Option.getD_none]
  norm_num [round1, roundHalfEven]
  rfl

theorem diagB_eval1 :
    EngineB.diagnose
      [("D", ⟨Option.none, Option.none, Option.none, [("S", ⟨some 1, Option.none, []⟩)]⟩)]
      [("S", [])] =
      some [⟨"D", "D", "General", 100, [⟨"S", 100, 100⟩], [], [], [],
        "Strong match on: S"⟩] := by
  simp only [EngineB.diagnose, List.foldlM_cons, List.foldlM_nil, scoreB_eval1,
    Option.bind_eq_bind, Option.some_bind]
  rfl

theorem getdiff_eval1 :
    EngineB.get_differential_diagnosis
      [("D", ⟨Option.none, Option.none, Option.none, [("S", ⟨some 1, Option.none, []⟩)]⟩)]
      [("S", [])] 2 50 =
      some [⟨"D", "D", "General", 100, [⟨"S", 100, 100⟩], [], [], [],
        "Strong match on: S"⟩] := by
  simp only [EngineB.get_differential_diagnosis, diagB_eval1, Option.bind_eq_bind,
    Option.some_bind]
  rw [show (List.filter (fun d => decide ((50:Rat) ≤ d.confidence))
      [(⟨"D", "D", "General", 100, [⟨"S", 100, 100⟩], [], [], [],
        "Strong match on: S"⟩ : EngineB.DiagnosisResult)]) =
      [⟨"D", "D", "General", 100, [⟨"S", 100, 100⟩], [], [], [],
        "Strong match on: S"⟩] from by
    rw [List.filter_cons, if_pos (by norm_num)]
    rfl]
  rfl

/-- C7: for every patient report, every `top_n ≥ 1` and every
`min_confidence`, whenever `get_differential_diagnosis` returns
normally it returns at most `top_n` entries, each with confidence at
least `min_confidence`, sorted by non-increasing confidence, and the
output is exactly the first `top_n` of the confidence-filtered,
already-sorted `diagnose` list. -/
theorem C7_top_differential (disease_profiles : List (String × EngineB.DiseaseData))
    (patient_symptoms : EngineB.Patient) (top_n : Nat) (min_confidence : Rat)
    (out : List EngineB.DiagnosisResult)
    (hn : 1 ≤ top_n)
    (h : EngineB.get_differential_diagnosis disease_profiles patient_symptoms top_n
      min_confidence = some out) :
    out.length ≤ top_n ∧
    (∀ d ∈ out, min_confidence ≤ d.confidence) ∧
    out.Pairwise (fun a b => b.confidence ≤ a.confidence) ∧
    (∃ all, EngineB.diagnose disease_profiles patient_symptoms = some all ∧
      all.Pairwise (fun a b => b.confidence ≤ a.confidence) ∧
      out = (all.filter (fun d => min_confidence ≤ d.confidence)).take top_n) := by
  cases hda : EngineB.diagnose disease_profiles patient_symptoms with
  | none =>
      rw [EngineB.get_differential_diagnosis] at h
      rw [hda] at h
      simp at h
  | some all =>
      rw [EngineB.get_differential_diagnosis] at h
      rw [hda] at h
      simp only [Option.bind_eq_bind, Option.some_bind, Option.pure_def,
        Option.some.injEq] at h
      have hsorted : all.Pairwise (fun a b => b.confidence ≤ a.confidence) := by
        rw [EngineB.diagnose] at hda
        cases hres : disease_profiles.foldlM
            (fun (acc : List EngineB.DiagnosisResult) (p : String × EngineB.DiseaseData) =>
              if p.2.symptoms.isEmpty then pure acc
              else do
                let ri ← EngineB.score_disease patient_symptoms p.1 p.2
                pure (if ri.2 then acc ++ [ri.1] else acc)) [] with
        | none =>
            rw [hres] at hda
            simp at hda
        | some results =>
            rw [hres] at hda
            simp only [Option.bind_eq_bind, Option.some_bind, Option.pure_def,
              Option.some.injEq] at hda
            rw [← hda]
            exact pairwise_sortDesc _ _
      subst h
      refine ⟨List.length_take_le _ _, ?_, ?_, all, rfl, hsorted, rfl⟩
      · intro d hd
        have hd2 := List.mem_of_mem_take hd
        have := List.of_mem_filter hd2
        exact of_decide_eq_true this
      · exact ((hsorted.filter _).sublist (List.take_sublist _ _))

/-- Witness for C7 at a concrete profile set, report and thresholds. -/
theorem C7_top_differential_witness :
    ([⟨"D", "D", "General", 100, [⟨"S", 100, 100⟩], [], [], [],
        "Strong match on: S"⟩] : List EngineB.DiagnosisResult).length ≤ 2 ∧
    (∀ d ∈ ([⟨"D", "D", "General", 100, [⟨"S", 100, 100⟩], [], [], [],
        "Strong match on: S"⟩] : List EngineB.DiagnosisResult),
      (50 : Rat) ≤ d.confidence) ∧
    ([⟨"D", "D", "General", 100, [⟨"S", 100, 100⟩], [], [], [],
        "Strong match on: S"⟩] : List EngineB.DiagnosisResult).Pairwise
      (fun a b => b.confidence ≤ a.confidence) ∧
    (∃ all, EngineB.diagnose
        [("D", ⟨Option.none, Option.none, Option.none,
          [("S", ⟨some 1, Option.none, []⟩)]⟩)] [("S", [])] = some all ∧
      all.Pairwise (fun a b => b.confidence ≤ a.confidence) ∧
      ([⟨"D", "D", "General", 100, [⟨"S", 100, 100⟩], [], [], [],
          "Strong match on: S"⟩] : List EngineB.DiagnosisResult) =
        (all.filter (fun d => (50 : Rat) ≤ d.confidence)).take 2) :=
  C7_top_differential
    [("D", ⟨Option.none, Option.none, Option.none, [("S", ⟨some 1, Option.none, []⟩)]⟩)]
    [("S", [])] 2 50 _ (by norm_num) getdiff_eval1

theorem stepB_evalC1 :
    EngineB.step_symptom ["S"] [("S", [])] ⟨0, 0, [], [], [], []⟩
      ("S", ⟨Option.none, Option.none, []⟩) =
      some ⟨1/2, 1/2, [⟨"S", 100, 50⟩], [], [], []⟩ := by
  simp only [EngineB.step_symptom, Option.getD_none]
  rw [if_neg (by norm_num : ¬ ((1 : Rat)/2 < 0)), if_pos (show "S" ∈ ["S"] by decide)]
  have hc : EngineB.calculate_symptom_match_score ⟨Option.none, Option.none, []⟩
      ((EngineB.alist_get [("S", ([] : EngineB.Attrs))] "S").getD []) = some 1 := rfl
  simp only [hc, Option.bind_eq_bind, Option.some_bind]
  rw [if_pos (by norm_num : (8 : Rat)/10 ≤ 1)]
  norm_num [roundHalfEven]

theorem scoreB_evalC1 :
    EngineB.score_disease [("S", [])] "D"
      ⟨Option.none, Option.none, Option.none, [("S", ⟨Option.none, Option.none, []⟩)]⟩ =
      some (⟨"D", "D", "General", 100, [⟨"S", 100, 50⟩], [], [], [],
        "Strong match on: S"⟩, true) := by
  simp only [EngineB.score_disease,
    show ([("S", ([] : EngineB.Attrs))].map Prod.fst) = ["S"] from rfl,
    List.foldlM_cons, List.foldlM_nil, stepB_evalC1, Option.bind_eq_bind,
    Option.some_bind, Option.getD_none]
  norm_num [round1, roundHalfEven]
  rfl

/-- C1 counterexample: a disease profile whose single symptom entry
has NO `importance` key. The engine scores it exactly as importance
0.5: the patient reporting that symptom gets a strong match whose
recorded importance is `round(0.5*100) = 50` and full confidence —
`symptom_config.get("importance", 0.5)` substitutes the 0.5 default
rather than treating the absence as an error. -/
theorem C1_counterexample :
    EngineB.diagnose
      [("D", ⟨Option.none, Option.none, Option.none,
        [("S", ⟨Option.none, Option.none, []⟩)]⟩)] [("S", [])] =
      some [⟨"D", "D", "General", 100, [⟨"S", 100, 50⟩], [], [], [],
        "Strong match on: S"⟩] := by
  simp only [EngineB.diagnose, List.foldlM_cons, List.foldlM_nil, scoreB_evalC1,
    Option.bind_eq_bind, Option.some_bind]
  rfl

/-- Substitution of the documented default: every symptom entry with a
missing `importance` is replaced by one with the explicit value 0.5. -/
def with_default_importance (profiles : List (String × EngineB.DiseaseData)) :
    List (String × EngineB.DiseaseData) :=
  profiles.map (fun p => (p.1,
    { p.2 with symptoms := p.2.symptoms.map (fun e =>
        (e.1, { e.2 with importance := some (e.2.importance.getD (1/2)) })) }))

theorem step_symptom_default (names : List String) (patient : EngineB.Patient)
    (acc : EngineB.BAcc) (e : String × EngineB.SymptomConfig) :
    EngineB.step_symptom names patient acc
      (e.1, { e.2 with importance := some (e.2.importance.getD (1/2)) }) =
    EngineB.step_symptom names patient acc e := rfl

theorem foldlM_step_default (names : List String) (patient : EngineB.Patient)
    (symptoms : List (String × EngineB.SymptomConfig)) :
    ∀ acc : EngineB.BAcc,
      (symptoms.map (fun e => (e.1,
          { e.2 with importance := some (e.2.importance.getD (1/2)) }))).foldlM
        (EngineB.step_symptom names patient) acc =
      symptoms.foldlM (EngineB.step_symptom names patient) acc := by
  induction symptoms with
  | nil => intro acc; rfl
  | cons e es ih =>
      intro acc
      rw [List.map_cons, List.foldlM_cons, List.foldlM_cons, step_symptom_default]
      cases h : EngineB.step_symptom names patient acc e with
      | none => rfl
      | some acc2 => exact ih acc2

theorem score_disease_default (patient : EngineB.Patient) (dn : String)
    (dd : EngineB.DiseaseData) :
    EngineB.score_disease patient dn
      { dd with symptoms := dd.symptoms.map (fun e =>
          (e.1, { e.2 with importance := some (e.2.importance.getD (1/2)) })) } =
    EngineB.score_disease patient dn dd := by
  simp only [EngineB.score_disease, foldlM_step_default]

/-- C1 (amended): a symptom entry lacking an `importance` value is not
an error and is not specially cased — the engine substitutes the
default 0.5, so a profile set in which every missing importance is
replaced by an explicit 0.5 diagnoses identically (prevalence
similarly defaults to 0.05 and category to "General"). -/
theorem C1_importance_defaults_amended (profiles : List (String × EngineB.DiseaseData))
    (patient : EngineB.Patient) :
    EngineB.diagnose (with_default_importance profiles) patient =
      EngineB.diagnose profiles patient := by
  simp only [EngineB.diagnose]
  have hfold : ∀ (acc : List EngineB.DiagnosisResult),
      (with_default_importance profiles).foldlM
        (fun (acc : List EngineB.DiagnosisResult) (p : String × EngineB.DiseaseData) =>
          if p.2.symptoms.isEmpty then pure acc
          else do
            let ri ← EngineB.score_disease patient p.1 p.2
            pure (if ri.2 then acc ++ [ri.1] else acc)) acc =
      profiles.foldlM
        (fun (acc : List EngineB.DiagnosisResult) (p : String × EngineB.DiseaseData) =>
          if p.2.symptoms.isEmpty then pure acc
          else do
            let ri ← EngineB.score_disease patient p.1 p.2
            pure (if ri.2 then acc ++ [ri.1] else acc)) acc := by
    induction profiles with
    | nil => intro acc; rfl
    | cons p ps ih =>
        intro acc
        rw [with_default_importance, List.map_cons, List.foldlM_cons, List.foldlM_cons]
        have hsymp : (({ p.2 with symptoms := p.2.symptoms.map (fun e =>
            (e.1, { e.2 with importance := some (e.2.importance.getD (1/2)) }))
            } : EngineB.DiseaseData).symptoms).isEmpty = p.2.symptoms.isEmpty := by
          cases p.2.symptoms with
          | nil => rfl
          | cons a l => rfl
        by_cases he : p.2.symptoms.isEmpty
        · rw [hsymp] at *
          rw [if_pos he, if_pos he]
          exact ih acc
        · rw [hsymp] at *
          rw [if_neg he, if_neg he, score_disease_default]
          cases h : EngineB.score_disease patient p.1 p.2 with
          | none => rfl
          | some ri =>
              show (some ri >>= fun ri => pure (if ri.2 then acc ++ [ri.1] else acc)) >>=
                  (fun b => (with_default_importance ps).foldlM _ b) = _
              cases ri with
              | mk r incl =>
                  cases incl with
                  | true => exact ih (acc ++ [r])
                  | false => exact ih acc
  rw [hfold]

/-- C4: for a disease profile with exactly one symptom entry of
importance -0.6 and no other symptoms, a patient report omitting that
symptom yields confidence `min(100, 100*(1+prevalence*0.2))` and the
disease carries exactly one negative-match record (no matched or
partially-matched entries); a report that includes that symptom yields
computed confidence 0 and the disease is excluded from the results
entirely. -/
theorem C4_negative_importance (dn sn : String) (cn cat : Option String)
    (p : Rat) (note : Option String) (exps : List (String × EngineB.Value))
    (patient : EngineB.Patient) (hp : 0 ≤ p) :
    (sn ∉ patient.map Prod.fst →
      ∃ r : EngineB.DiagnosisResult,
        EngineB.diagnose
            [(dn, ⟨cn, cat, some p, [(sn, ⟨some (-(3/5)), note, exps⟩)]⟩)] patient =
          some [r] ∧
        r.confidence = min 100 (100 * (1 + p * (1/5))) ∧
        r.negative_matches.length = 1 ∧ r.matched_symptoms = [] ∧
        r.partially_matched = []) ∧
    (sn ∈ patient.map Prod.fst →
      EngineB.diagnose
          [(dn, ⟨cn, cat, some p, [(sn, ⟨some (-(3/5)), note, exps⟩)]⟩)] patient =
        some [] ∧
      (EngineB.score_disease patient dn
          ⟨cn, cat, some p, [(sn, ⟨some (-(3/5)), note, exps⟩)]⟩).map
        (fun q => q.1.confidence) = some 0) := by
  have hneg : (-(3/5) : Rat) < 0 := by norm_num
  constructor
  · intro hmem
    have hstep : EngineB.step_symptom (patient.map Prod.fst) patient ⟨0, 0, [], [], [], []⟩
        (sn, ⟨some (-(3/5)), note, exps⟩) =
        some ⟨3/5, 3/5, [], [], [],
          [⟨sn, note.getD ("Absence of " ++ sn ++ " supports this diagnosis")⟩]⟩ := by
      simp only [EngineB.step_symptom, Option.getD_some]
      rw [if_pos hneg, if_pos hmem]
      norm_num
    have hble : (100 : Rat) ≤ (3/5 : Rat) / (3/5) * 100 * (1 + p * (1/5)) := by
      nlinarith
    have hscore : EngineB.score_disease patient dn
        ⟨cn, cat, some p, [(sn, ⟨some (-(3/5)), note, exps⟩)]⟩ =
        some (⟨dn, cn.getD dn, cat.getD "General", 100, [], [], [],
          [⟨sn, note.getD ("Absence of " ++ sn ++ " supports this diagnosis")⟩],
          note.getD ("Absence of " ++ sn ++ " supports this diagnosis")⟩, true) := by
      simp only [EngineB.score_disease, List.foldlM_cons, List.foldlM_nil, hstep,
        Option.bind_eq_bind, Option.pure_def, Option.some_bind, Option.getD_some]
      rw [if_pos (by norm_num : (0:Rat) < 3/5), min_eq_left hble]
      norm_num [round1, roundHalfEven]
      rfl
    refine ⟨⟨dn, cn.getD dn, cat.getD "General", 100, [], [], [],
      [⟨sn, note.getD ("Absence of " ++ sn ++ " supports this diagnosis")⟩],
      note.getD ("Absence of " ++ sn ++ " supports this diagnosis")⟩, ?_, ?_, rfl, rfl, rfl⟩
    · simp only [EngineB.diagnose, List.foldlM_cons, List.foldlM_nil, hscore,
        Option.bind_eq_bind, Option.some_bind]
      rfl
    · show (100 : Rat) = min 100 (100 * (1 + p * (1/5)))
      rw [min_eq_left (by nlinarith)]
  · intro hmem
    have hstep2 : EngineB.step_symptom (patient.map Prod.fst) patient ⟨0, 0, [], [], [], []⟩
        (sn, ⟨some (-(3/5)), note, exps⟩) = some ⟨0, 3/5, [], [], [], []⟩ := by
      simp only [EngineB.step_symptom, Option.getD_some]
      rw [if_pos hneg, if_neg (not_not_intro hmem)]
      norm_num
    have hscore2 : EngineB.score_disease patient dn
        ⟨cn, cat, some p, [(sn, ⟨some (-(3/5)), note, exps⟩)]⟩ =
        some (⟨dn, cn.getD dn, cat.getD "General", 0, [], [], [], [], ""⟩, false) := by
      simp only [EngineB.score_disease, List.foldlM_cons, List.foldlM_nil, hstep2,
        Option.bind_eq_bind, Option.pure_def, Option.some_bind, Option.getD_some]
      rw [if_pos (by norm_num : (0:Rat) < 3/5)]
      norm_num [round1, roundHalfEven]
      rfl
    constructor
    · simp only [EngineB.diagnose, List.foldlM_cons, List.foldlM_nil, hscore2,
        Option.bind_eq_bind, Option.some_bind]
      rfl
    · rw [hscore2]
      rfl

/-- Witness for C4 at a concrete profile (prevalence 0.05) and both
report shapes. -/
theorem C4_negative_importance_witness :
    (∃ r : EngineB.DiagnosisResult,
      EngineB.diagnose
          [("D", ⟨Option.none, Option.none, some (1/20),
            [("S", ⟨some (-(3/5)), Option.none, []⟩)]⟩)] [] = some [r] ∧
      r.confidence = min 100 (100 * (1 + (1/20 : Rat) * (1/5))) ∧
      r.negative_matches.length = 1 ∧ r.matched_symptoms = [] ∧
      r.partially_matched = []) ∧
    (EngineB.diagnose
        [("D", ⟨Option.none, Option.none, some (1/20),
          [("S", ⟨some (-(3/5)), Option.none, []⟩)]⟩)] [("S", [])] = some [] ∧
      (EngineB.score_disease [("S", [])] "D"
          ⟨Option.none, Option.none, some (1/20),
            [("S", ⟨some (-(3/5)), Option.none, []⟩)]⟩).map
        (fun q => q.1.confidence) = some 0) :=
  ⟨(C4_negative_importance "D" "S" Option.none Option.none (1/20) Option.none [] []
      (by norm_num)).1 (by decide),
   (C4_negative_importance "D" "S" Option.none Option.none (1/20) Option.none []
      [("S", [])] (by norm_num)).2 (by decide)⟩

theorem alist_get_of_mem_keys {α : Type} (l : List (String × α)) (s : String)
    (h : s ∈ l.map Prod.fst) : ∃ a, EngineB.alist_get l s = some a := by
  induction l with
  | nil => simp at h
  | cons kv rest ih =>
      by_cases hks : kv.1 = s
      · exact ⟨kv.2, by rw [EngineB.alist_get, if_pos hks]⟩
      · rw [EngineB.alist_get, if_neg hks]
        apply ih
        rw [List.map_cons] at h
        rcases List.mem_cons.mp h with he | he
        · exact absurd he.symm hks
        · exact he
theorem calculate_congr (cfg : EngineB.SymptomConfig) (a1 a2 : EngineB.Attrs)
    (hv : ∀ k ∈ cfg.expectations.map Prod.fst, EngineB.pyGet a1 k = EngineB.pyGet a2 k) :
    EngineB.calculate_symptom_match_score cfg a1 =
      EngineB.calculate_symptom_match_score cfg a2 := by
  simp only [EngineB.calculate_symptom_match_score]
  by_cases hemp : cfg.expectations.isEmpty
  · rw [if_pos hemp, if_pos hemp]
  · rw [if_neg hemp, if_neg hemp]
    have hfold : ∀ (exps : List (String × EngineB.Value)),
        (∀ k ∈ exps.map Prod.fst, EngineB.pyGet a1 k = EngineB.pyGet a2 k) →
        ∀ acc : Rat × Rat,
        exps.foldlM
          (fun (acc : Rat × Rat) (kv : String × EngineB.Value) => do
            let match_score ← EngineB.match_expectation kv.2 (EngineB.pyGet a1 kv.1)
            let weight : Rat := 1
            pure (acc.1 + weight, acc.2 + match_score * weight)) acc =
        exps.foldlM
          (fun (acc : Rat × Rat) (kv : String × EngineB.Value) => do
            let match_score ← EngineB.match_expectation kv.2 (EngineB.pyGet a2 kv.1)
            let weight : Rat := 1
            pure (acc.1 + weight, acc.2 + match_score * weight)) acc := by
      intro exps
      induction exps with
      | nil => intro hKs acc; rfl
      | cons kv rest ih =>
          intro hKs acc
          rw [List.foldlM_cons, List.foldlM_cons, hKs kv.1 (by simp)]
          cases EngineB.match_expectation kv.2 (EngineB.pyGet a2 kv.1) with
          | none => rfl
          | some ms => exact ih (fun k hkmem => hKs k (by simp [hkmem])) _
    rw [hfold cfg.expectations hv]

/-- The per-symptom-entry side condition of the C10 congruence: when
this entry's expectation map mentions the key `present`, the two
reports agree on the reported `present` value of this symptom. (For
entries that do not mention `present` the condition is vacuous.) -/
def presentAgrees (p1 p2 : EngineB.Patient) (e : String × EngineB.SymptomConfig) : Prop :=
  ∀ a1 a2, EngineB.alist_get p1 e.1 = some a1 → EngineB.alist_get p2 e.1 = some a2 →
    "present" ∈ e.2.expectations.map Prod.fst →
    EngineB.pyGet a1 "present" = EngineB.pyGet a2 "present"

theorem step_congr (p1 p2 : EngineB.Patient)
    (hk : p1.map Prod.fst = p2.map Prod.fst)
    (hv : ∀ s a1 a2, EngineB.alist_get p1 s = some a1 →
      EngineB.alist_get p2 s = some a2 →
      ∀ k, k ≠ "present" → EngineB.pyGet a1 k = EngineB.pyGet a2 k)
    (acc : EngineB.BAcc) (e : String × EngineB.SymptomConfig)
    (hpe : presentAgrees p1 p2 e) :
    EngineB.step_symptom (p1.map Prod.fst) p1 acc e =
      EngineB.step_symptom (p2.map Prod.fst) p2 acc e := by
  simp only [EngineB.step_symptom]
  rw [hk]
  by_cases hneg : (e.2.importance.getD (1/2) : Rat) < 0
  · rw [if_pos hneg, if_pos hneg]
  · rw [if_neg hneg, if_neg hneg]
    by_cases hmem : e.1 ∈ p2.map Prod.fst
    · rw [if_pos hmem, if_pos hmem]
      obtain ⟨a1, ha1⟩ := alist_get_of_mem_keys p1 e.1 (by rw [hk]; exact hmem)
      obtain ⟨a2, ha2⟩ := alist_get_of_mem_keys p2 e.1 hmem
      rw [ha1, ha2]
      simp only [Option.getD_some]
      have hall : ∀ k ∈ e.2.expectations.map Prod.fst,
          EngineB.pyGet a1 k = EngineB.pyGet a2 k := by
        intro k hkmem
        by_cases hkp : k = "present"
        · subst hkp
          exact hpe a1 a2 ha1 ha2 hkmem
        · exact hv e.1 a1 a2 ha1 ha2 k hkp
      rw [calculate_congr e.2 a1 a2 hall]
    · rw [if_neg hmem, if_neg hmem]

theorem foldlM_step_congr (p1 p2 : EngineB.Patient)
    (hk : p1.map Prod.fst = p2.map Prod.fst)
    (hv : ∀ s a1 a2, EngineB.alist_get p1 s = some a1 →
      EngineB.alist_get p2 s = some a2 →
      ∀ k, k ≠ "present" → EngineB.pyGet a1 k = EngineB.pyGet a2 k)
    (symptoms : List (String × EngineB.SymptomConfig))
    (hpres : ∀ e ∈ symptoms, presentAgrees p1 p2 e) :
    ∀ acc : EngineB.BAcc,
      symptoms.foldlM (EngineB.step_symptom (p1.map Prod.fst) p1) acc =
      symptoms.foldlM (EngineB.step_symptom (p2.map Prod.fst) p2) acc := by
  induction symptoms with
  | nil => intro acc; rfl
  | cons e es ih =>
      intro acc
      rw [List.foldlM_cons, List.foldlM_cons,
        step_congr p1 p2 hk hv acc e (hpres e (by simp))]
      cases EngineB.step_symptom (p2.map Prod.fst) p2 acc e with
      | none => rfl
      | some acc2 => exact ih (fun x hx => hpres x (by simp [hx])) acc2

theorem score_disease_congr (p1 p2 : EngineB.Patient)
    (hk : p1.map Prod.fst = p2.map Prod.fst)
    (hv : ∀ s a1 a2, EngineB.alist_get p1 s = some a1 →
      EngineB.alist_get p2 s = some a2 →
      ∀ k, k ≠ "present" → EngineB.pyGet a1 k = EngineB.pyGet a2 k)
    (dn : String) (dd : EngineB.DiseaseData)
    (hpres : ∀ e ∈ dd.symptoms, presentAgrees p1 p2 e) :
    EngineB.score_disease p1 dn dd = EngineB.score_disease p2 dn dd := by
  simp only [EngineB.score_disease]
  rw [foldlM_step_congr p1 p2 hk hv dd.symptoms hpres]

/-- C10: Engine B decides whether a symptom was reported solely by the
presence of its key in the patient map and never reads the `present`
attribute for that decision: two reports with the same symptom keys
whose attribute maps agree on every key other than `present` produce
identical output, provided that for each symptom whose reported
`present` value differs between the two reports, no disease
expectation set FOR THAT SYMPTOM contains the key `present`
(expectation sets of other symptoms may mention `present` freely). -/
theorem C10_present_value_ignored (profiles : List (String × EngineB.DiseaseData))
    (p1 p2 : EngineB.Patient)
    (hk : p1.map Prod.fst = p2.map Prod.fst)
    (hv : ∀ s a1 a2, EngineB.alist_get p1 s = some a1 →
      EngineB.alist_get p2 s = some a2 →
      ∀ k, k ≠ "present" → EngineB.pyGet a1 k = EngineB.pyGet a2 k)
    (hpres : ∀ s a1 a2, EngineB.alist_get p1 s = some a1 →
      EngineB.alist_get p2 s = some a2 →
      EngineB.pyGet a1 "present" ≠ EngineB.pyGet a2 "present" →
      ∀ dn dd, (dn, dd) ∈ profiles → ∀ cfg, (s, cfg) ∈ dd.symptoms →
        "present" ∉ cfg.expectations.map Prod.fst) :
    EngineB.diagnose profiles p1 = EngineB.diagnose profiles p2 := by
  simp only [EngineB.diagnose]
  have hfold : ∀ (ps : List (String × EngineB.DiseaseData)),
      (∀ dn dd, (dn, dd) ∈ ps → ∀ e ∈ dd.symptoms, presentAgrees p1 p2 e) →
      ∀ acc : List EngineB.DiagnosisResult,
      ps.foldlM
        (fun (acc : List EngineB.DiagnosisResult) (p : String × EngineB.DiseaseData) =>
          if p.2.symptoms.isEmpty then pure acc
          else do
            let ri ← EngineB.score_disease p1 p.1 p.2
            pure (if ri.2 then acc ++ [ri.1] else acc)) acc =
      ps.foldlM
        (fun (acc : List EngineB.DiagnosisResult) (p : String × EngineB.DiseaseData) =>
          if p.2.symptoms.isEmpty then pure acc
          else do
            let ri ← EngineB.score_disease p2 p.1 p.2
            pure (if ri.2 then acc ++ [ri.1] else acc)) acc := by
    intro ps
    induction ps with
    | nil => intro hps acc; rfl
    | cons q qs ih =>
        intro hps acc
        rw [List.foldlM_cons, List.foldlM_cons]
        by_cases he : q.2.symptoms.isEmpty
        · rw [if_pos he, if_pos he]
          exact ih (fun dn dd hdd => hps dn dd (by simp [hdd])) acc
        · rw [if_neg he, if_neg he,
            score_disease_congr p1 p2 hk hv q.1 q.2
              (hps q.1 q.2 (by simp [Prod.ext_iff]))]
          cases EngineB.score_disease p2 q.1 q.2 with
          | none => rfl
          | some ri =>
              cases hri : ri.2 with
              | true =>
                  simp only [Option.bind_eq_bind, Option.some_bind, hri, if_true]
                  exact ih (fun dn dd hdd => hps dn dd (by simp [hdd])) _
              | false =>
                  simp only [Option.bind_eq_bind, Option.some_bind, hri,
                    Bool.false_eq_true, if_false]
                  exact ih (fun dn dd hdd => hps dn dd (by simp [hdd])) acc
  have hps : ∀ dn dd, (dn, dd) ∈ profiles → ∀ e ∈ dd.symptoms,
      presentAgrees p1 p2 e := by
    intro dn dd hdd e he a1 a2 ha1 ha2 hin
    by_cases heq : EngineB.pyGet a1 "present" = EngineB.pyGet a2 "present"
    · exact heq
    · exact absurd hin (hpres e.1 a1 a2 ha1 ha2 heq dn dd hdd e.2 he)
  rw [hfold profiles hps []]

/-- Witness for C10: two reports differing only in the value of
`present` for the reported symptom, against a profile whose
expectation map for that symptom does not mention `present`. -/
theorem C10_present_value_ignored_witness :
    EngineB.diagnose
      [("D", ⟨Option.none, Option.none, Option.none,
        [("S", ⟨some 1, Option.none, [("intensity", EngineB.Value.num 5)]⟩)]⟩)]
      [("S", [("present", EngineB.Value.bool true),
        ("intensity", EngineB.Value.num 5)])] =
    EngineB.diagnose
      [("D", ⟨Option.none, Option.none, Option.none,
        [("S", ⟨some 1, Option.none, [("intensity", EngineB.Value.num 5)]⟩)]⟩)]
      [("S", [("present", EngineB.Value.bool false),
        ("intensity", EngineB.Value.num 5)])] := by
  apply C10_present_value_ignored
  · rfl
  · intro s a1 a2 h1 h2 k hkne
    by_cases hS : ("S" : String) = s
    · rw [EngineB.alist_get, if_pos hS] at h1 h2
      injection h1 with h1e
      injection h2 with h2e
      subst h1e
      subst h2e
      have hpf : ("present" = k) = False := eq_false (fun hh => hkne hh.symm)
      simp only [EngineB.pyGet, EngineB.alist_get, hpf, if_false]
    · rw [EngineB.alist_get, if_neg hS] at h1
      simp only [EngineB.alist_get] at h1
      exact Option.noConfusion h1
  · intro s a1 a2 h1 h2 hneq dn dd hdd cfg hcfg
    obtain ⟨rfl, rfl⟩ := Prod.mk.injEq dn dd _ _ ▸ List.mem_singleton.mp hdd
    have hc2 := List.mem_singleton.mp hcfg
    injection hc2 with hc2a hc2b
    subst hc2b
    decide

end Claims
